import Mathlib

/-!
# Process manager tracing (`servers/pm/trace.c`)

A shallow embedding of `do_trace`, `find_proc` and `stop_proc`.

* The process table `mproc[NR_PROCS]` is a total map from slot numbers to
  entries; only the slots below `NR_PROCS` are scanned by `find_proc`.
  Pointers into the table (`mp`, `child`, `rmp`, `rpmp`) are slot numbers,
  and a write through a pointer is an update of that slot, so aliasing
  between `mp` and `child` behaves as in C.
* The functions of the process manager and of the system library that
  `trace.c` calls but does not define (`sys_trace`, `sig_proc`, `exit_proc`,
  `setreply`) are parameters, gathered in `Collaborators`.
* Every call is logged together with the process table at the moment of the
  call, so that "exactly one relay call", "no relay call" and "the flag is
  cleared before the call" are statements about the log.
-/

namespace PM

/-! ## Constants of the absent headers -/

/-- Modelled from the spec: the success status of `<minix/const.h>`, absent
from the sources. -/
def OK : Int := 0

/-- Modelled from the spec: the permission-denied error of `<errno.h>`,
absent from the sources; the servers see error numbers negated. -/
def EPERM : Int := -1

/-- Modelled from the spec: the no-such-process error of `<errno.h>`, absent
from the sources. -/
def ESRCH : Int := -3

/-- Modelled from the spec: the I/O-class error of `<errno.h>`, absent from
the sources. -/
def EIO : Int := -5

/-- Modelled from the spec: the "reply is deferred" status of the process
manager, absent from the sources. -/
def SUSPEND : Int := -998

/-- Modelled from the spec: the effective uid holding superuser authority,
absent from the sources. -/
def SUPER_USER : Int := 0

/-- Modelled from the spec: the largest signal number of `<signal.h>`, absent
from the sources. -/
def _NSIG : Int := 20

/-- Modelled from the spec: the "terminated while traced" cause handed to
`exit_proc`, absent from the sources. -/
def PM_EXIT_TR : Int := 2

/-- Modelled from the spec: the trace command codes of `<sys/ptrace.h>`,
absent from the sources; pairwise distinct. -/
def T_STOP : Int := -1

/-- Modelled from the spec: enable-tracing command code (see `T_STOP`). -/
def T_OK : Int := 0

/-- Modelled from the spec: get-instruction-space command code. -/
def T_GETINS : Int := 1

/-- Modelled from the spec: resume command code (see `T_STOP`). -/
def T_RESUME : Int := 7

/-- Modelled from the spec: exit-while-traced command code (see `T_STOP`). -/
def T_EXIT : Int := 8

/-- Modelled from the spec: single-step command code (see `T_STOP`). -/
def T_STEP : Int := 9

/-- Modelled from the spec: privileged raw read of instruction space. -/
def T_READB_INS : Int := 20

/-- Modelled from the spec: privileged raw write of instruction space. -/
def T_WRITEB_INS : Int := 21

/-- Modelled from the spec: the flag bits of `mproc.h`, absent from the
sources: independent boolean attributes, each a single bit of `mp_flags`. -/
def IN_USE : Nat := 0x001

/-- Modelled from the spec: parent-waiting flag bit (see `IN_USE`). -/
def WAITING : Nat := 0x002

/-- Modelled from the spec: zombie flag bit (see `IN_USE`). -/
def ZOMBIE : Nat := 0x004

/-- Modelled from the spec: traced flag bit (see `IN_USE`). -/
def TRACED : Nat := 0x040

/-- Modelled from the spec: stopped flag bit (see `IN_USE`). -/
def STOPPED : Nat := 0x080

/-- The C expression `~m` at the width of `mp_flags` (32 bits). -/
def bitnot (m : Nat) : Nat := 0xFFFFFFFF - m

/-- The C cast `(int) x` of a `long`: reduction to 32 bits, two's
complement. -/
def int_cast (x : Int) : Int := (x + 2147483648) % 4294967296 - 2147483648

/-! ## Data model -/

/-- The fields of `mp_reply` written by `trace.c`. -/
structure Reply where
  reply_res2 : Int
  reply_trace : Int
deriving DecidableEq, Repr

/-- The fields of `struct mproc` read or written by `trace.c`. -/
structure Mproc where
  mp_pid : Int
  mp_endpoint : Int
  mp_parent : Nat
  mp_effuid : Int
  mp_flags : Nat
  mp_sigstatus : Int
  mp_reply : Reply
deriving DecidableEq, Repr

/-- The array `mproc`, indexed by slot number. -/
abbrev Table := Nat → Mproc

/-- The fields of the request message `m_in` read by `do_trace`. -/
structure Message where
  request : Int
  pid : Int
  taddr : Int
  data : Int
deriving DecidableEq, Repr

/-- A call made by `trace.c`, with its arguments. A null `data_p` of
`sys_trace` is `none`; otherwise it carries the value pointed to. -/
inductive Call where
  | find_proc (lpid : Int)
  | sys_trace (req : Int) (proc_ep : Int) (addr : Int) (data_p : Option Int)
  | sig_proc (rmp : Nat) (signo : Int)
  | exit_proc (rmp : Nat) (exit_status : Int) (exit_type : Int)
  | setreply (proc_nr : Nat) (result : Int)
  | panic (who : String) (mess : String) (num : Int)
deriving DecidableEq, Repr

/-- A logged call and the process table at the moment it was made. -/
structure Event where
  call : Call
  mproc : Table

/-- The functions `trace.c` calls and does not define.
`sys_trace` returns the status and the value the kernel leaves in `*data_p`
(ignored when `data_p` is null); the others act on the process table. -/
structure Collaborators where
  sys_trace : Int → Int → Int → Option Int → Int × Int
  sig_proc : Table → Nat → Int → Table
  exit_proc : Table → Nat → Int → Int → Table
  setreply : Table → Nat → Int → Table

/-- What a call of `do_trace` leaves behind: the returned status, the process
table and the calls made, in order. -/
structure Outcome where
  ret : Int
  mproc : Table
  calls : List Event

/-- What a call of `stop_proc` leaves behind; `panicked` when it ended in
`panic` instead of returning. -/
structure StopOutcome where
  panicked : Bool
  mproc : Table
  calls : List Event

/-! ## The code -/

/-- Function `find_proc` (lines 141-152): the first slot below `NR_PROCS` whose flags,
masked with `IN_USE | ZOMBIE`, equal `IN_USE` and whose pid is `lpid`. -/
def find_proc (NR_PROCS : Nat) (mproc : Table) (lpid : Int) : Option Nat :=
  (List.range NR_PROCS).find? fun rmp =>
    decide ((mproc rmp).mp_flags &&& (IN_USE ||| ZOMBIE) = IN_USE ∧ (mproc rmp).mp_pid = lpid)

/-- The statement `p->mp_flags |= m` on slot `p`. -/
def set_flags (mproc : Table) (p : Nat) (m : Nat) : Table :=
  Function.update mproc p { mproc p with mp_flags := (mproc p).mp_flags ||| m }

/-- The statement `p->mp_flags &= ~m` on slot `p`. -/
def clear_flags (mproc : Table) (p : Nat) (m : Nat) : Table :=
  Function.update mproc p { mproc p with mp_flags := (mproc p).mp_flags &&& bitnot m }

/-- The statement `p->mp_sigstatus = v` on slot `p`. -/
def set_sigstatus (mproc : Table) (p : Nat) (v : Int) : Table :=
  Function.update mproc p { mproc p with mp_sigstatus := v }

/-- The statement `p->mp_reply.reply_trace = v` on slot `p`. -/
def set_reply_trace (mproc : Table) (p : Nat) (v : Int) : Table :=
  Function.update mproc p
    { mproc p with mp_reply := { (mproc p).mp_reply with reply_trace := v } }

/-- The statement `p->mp_reply.reply_res2 = v` on slot `p`. -/
def set_reply_res2 (mproc : Table) (p : Nat) (v : Int) : Table :=
  Function.update mproc p
    { mproc p with mp_reply := { (mproc p).mp_reply with reply_res2 := v } }

/-- The relay tail shared by lines 58-62, 83-87 and 131-135:
`r = sys_trace(m_in.request, child->mp_endpoint, m_in.taddr, &m_in.data);`
`if (r != OK) return(r); mp->mp_reply.reply_trace = m_in.data; return(OK);`
`calls` are the calls made so far. -/
def relay (K : Collaborators) (mproc : Table) (who_p : Nat) (m_in : Message) (child : Nat)
    (calls : List Event) : Outcome :=
  let ev : Event :=
    ⟨Call.sys_trace m_in.request (mproc child).mp_endpoint m_in.taddr (some m_in.data), mproc⟩
  let res := K.sys_trace m_in.request (mproc child).mp_endpoint m_in.taddr (some m_in.data)
  if res.1 ≠ OK then ⟨res.1, mproc, calls ++ [ev]⟩
  else ⟨OK, set_reply_trace mproc who_p res.2, calls ++ [ev]⟩

/-- Function `do_trace` (lines 37-136). `mp` is `mproc[who_p]`. -/
def do_trace (K : Collaborators) (NR_PROCS : Nat) (mproc : Table) (who_p : Nat)
    (m_in : Message) : Outcome :=
  if m_in.request = T_OK then
    let mproc1 := set_flags mproc who_p TRACED
    let mproc2 := set_reply_trace mproc1 who_p 0
    ⟨OK, mproc2, []⟩
  else if m_in.request = T_READB_INS then
    if (mproc who_p).mp_effuid ≠ SUPER_USER then ⟨EPERM, mproc, []⟩
    else
      match find_proc NR_PROCS mproc m_in.pid with
      | none => ⟨ESRCH, mproc, [⟨Call.find_proc m_in.pid, mproc⟩]⟩
      | some child => relay K mproc who_p m_in child [⟨Call.find_proc m_in.pid, mproc⟩]
  else if m_in.request = T_WRITEB_INS then
    if (mproc who_p).mp_effuid ≠ SUPER_USER then ⟨EPERM, mproc, []⟩
    else
      match find_proc NR_PROCS mproc m_in.pid with
      | none => ⟨ESRCH, mproc, [⟨Call.find_proc m_in.pid, mproc⟩]⟩
      | some child => relay K mproc who_p m_in child [⟨Call.find_proc m_in.pid, mproc⟩]
  else
    let ev0 : Event := ⟨Call.find_proc m_in.pid, mproc⟩
    match find_proc NR_PROCS mproc m_in.pid with
    | none => ⟨ESRCH, mproc, [ev0]⟩
    | some child =>
      if (mproc child).mp_parent ≠ who_p then ⟨ESRCH, mproc, [ev0]⟩
      else if m_in.request = T_STOP then
        let ev1 : Event := ⟨Call.sys_trace T_STOP (mproc child).mp_endpoint 0 none, mproc⟩
        let r := (K.sys_trace T_STOP (mproc child).mp_endpoint 0 none).1
        if r ≠ OK then ⟨r, mproc, [ev0, ev1]⟩
        else
          let mproc1 := set_flags mproc child STOPPED
          let mproc2 := set_sigstatus mproc1 child 0
          let mproc3 := set_reply_trace mproc2 who_p 0
          ⟨OK, mproc3, [ev0, ev1]⟩
      else if (mproc child).mp_flags &&& STOPPED = 0 ∨ (mproc child).mp_sigstatus > 0 then
        ⟨ESRCH, mproc, [ev0]⟩
      else if m_in.request = T_EXIT then
        ⟨SUSPEND, K.exit_proc mproc child (int_cast m_in.data) PM_EXIT_TR,
         [ev0, ⟨Call.exit_proc child (int_cast m_in.data) PM_EXIT_TR, mproc⟩]⟩
      else if m_in.request = T_RESUME ∨ m_in.request = T_STEP then
        if m_in.data < 0 ∨ m_in.data > _NSIG then ⟨ EIO, mproc, [ev0]⟩
        else if m_in.data > 0 then
          let mproc1 := clear_flags mproc child TRACED
          let mproc2 := K.sig_proc mproc1 child (int_cast m_in.data)
          let mproc3 := set_flags mproc2 child TRACED
          let mproc4 := clear_flags mproc3 child STOPPED
          relay K mproc4 who_p m_in child
            [ev0, ⟨Call.sig_proc child (int_cast m_in.data), mproc1⟩]
        else
          let mproc4 := clear_flags mproc child STOPPED
          relay K mproc4 who_p m_in child [ev0]
      else relay K mproc who_p m_in child [ev0]

/-- The wait status word of line 172, `0177 | (signo << 8)`. -/
def stop_status (signo : Int) : Int := Int.lor 0o177 (signo <<< (8 : Int))

/-- Function `stop_proc` (lines 157-178). `rpmp` is `mproc + rmp->mp_parent`. -/
def stop_proc (K : Collaborators) (mproc : Table) (rmp : Nat) (signo : Int) : StopOutcome :=
  let rpmp := (mproc rmp).mp_parent
  let ev0 : Event := ⟨Call.sys_trace T_STOP (mproc rmp).mp_endpoint 0 none, mproc⟩
  let r := (K.sys_trace T_STOP (mproc rmp).mp_endpoint 0 none).1
  if r ≠ OK then ⟨true, mproc, [ev0, ⟨Call.panic "pm" "sys_trace failed" r, mproc⟩]⟩
  else
    let mproc1 := set_flags mproc rmp STOPPED
    if (mproc1 rpmp).mp_flags &&& WAITING ≠ 0 then
      let mproc2 := clear_flags mproc1 rpmp WAITING
      let mproc3 := set_reply_res2 mproc2 rpmp (stop_status signo)
      ⟨false, K.setreply mproc3 (mproc3 rmp).mp_parent (mproc3 rmp).mp_pid,
       [ev0, ⟨Call.setreply (mproc3 rmp).mp_parent (mproc3 rmp).mp_pid, mproc3⟩]⟩
    else
      ⟨false, set_sigstatus mproc1 rmp signo, [ev0]⟩

/-! ## Concrete process tables and collaborators -/

/-- A free slot of the table. -/
def free_slot : Mproc := ⟨0, 0, 0, 0, 0, 0, ⟨0, 0⟩⟩

/-- A table of four slots: slot 1 holds the caller (pid 5, effective uid
`uid`), slot 2 its child (pid 10, flags `cflags`, pending status `csig`),
slot 3 a live process (pid 11) that is a child of slot 0, slot 0 is free. -/
def demo_table (uid : Int) (cflags : Nat) (csig : Int) : Table := fun i =>
  if i = 1 then ⟨5, 105, 0, uid, IN_USE, 0, ⟨0, 99⟩⟩
  else if i = 2 then ⟨10, 110, 1, 7, cflags, csig, ⟨0, 0⟩⟩
  else if i = 3 then ⟨11, 111, 0, 7, IN_USE, 0, ⟨0, 0⟩⟩
  else free_slot

/-- Collaborators whose relay answers every request with status `r` and the
value 42, and whose other functions leave the table alone. -/
def demo_relay (r : Int) : Collaborators where
  sys_trace := fun _ _ _ _ => (r, 42)
  sig_proc := fun t _ _ => t
  exit_proc := fun t _ _ _ => t
  setreply := fun t _ _ => t

/-- A table whose only live entry, in slot 1, is its own parent (as the
entry the system processes hang under is), traced and not waiting. -/
def self_parent_table : Table := fun i =>
  if i = 1 then ⟨5, 105, 1, 7, IN_USE ||| TRACED, 0, ⟨0, 0⟩⟩ else free_slot

/-- The predicate of the data model: every scanned entry with `STOPPED` set
has `TRACED` set. -/
def stopped_implies_traced (NR_PROCS : Nat) (mproc : Table) : Prop :=
  ∀ i, i < NR_PROCS → (mproc i).mp_flags &&& STOPPED ≠ 0 → (mproc i).mp_flags &&& TRACED ≠ 0

/-! ## Flag arithmetic -/

/-- Masking with a single bit gives nothing or the bit. -/
theorem and_two_pow_cases (f k : Nat) : f &&& 2 ^ k = 0 ∨ f &&& 2 ^ k = 2 ^ k := by
  cases h : f.testBit k
  · left
    apply Nat.eq_of_testBit_eq
    intro i
    by_cases hk : k = i
    · subst hk; simp [h]
    · simp [Nat.testBit_two_pow, hk]
  · right
    apply Nat.eq_of_testBit_eq
    intro i
    by_cases hk : k = i
    · subst hk; simp [h]
    · simp [Nat.testBit_two_pow, hk]

/-- The test of `find_proc` on the flags: `IN_USE` set and `ZOMBIE` clear. -/
theorem flags_live_iff (f : Nat) :
    f &&& (IN_USE ||| ZOMBIE) = IN_USE ↔ f &&& IN_USE ≠ 0 ∧ f &&& ZOMBIE = 0 := by
  have b1 : f &&& 1 = 0 ∨ f &&& 1 = 1 := and_two_pow_cases f 0
  have b4 : f &&& 4 = 0 ∨ f &&& 4 = 4 := and_two_pow_cases f 2
  show f &&& (1 ||| 4) = 1 ↔ f &&& 1 ≠ 0 ∧ f &&& 4 = 0
  rw [Nat.and_or_distrib_left]
  rcases b1 with h1 | h1 <;> rcases b4 with h4 | h4 <;> rw [h1, h4] <;> decide

/-- Clearing a bit with `&= ~bit` leaves it clear. -/
theorem and_bitnot_clear (f k : Nat) (hk : k < 32) :
    (f &&& bitnot (2 ^ k)) &&& 2 ^ k = 0 := by
  apply Nat.eq_of_testBit_eq
  intro i
  by_cases hi : k = i
  · subst hi
    have : (bitnot (2 ^ k)).testBit k = false := by
      unfold bitnot
      interval_cases k <;> decide
    simp [this]
  · simp [Nat.testBit_two_pow, hi]

/-- Clearing one bit with `&= ~bit` keeps another bit that is set. -/
theorem or_and_bitnot_keep (f j k : Nat) (hj : j < 32) (hk : k < 32) (hjk : j ≠ k) :
    ((f ||| 2 ^ j) &&& bitnot (2 ^ k)) &&& 2 ^ j = 2 ^ j := by
  apply Nat.eq_of_testBit_eq
  intro i
  by_cases hi : j = i
  · subst hi
    have : (bitnot (2 ^ k)).testBit j = true := by
      unfold bitnot
      interval_cases j <;> interval_cases k <;> first | (exfalso; exact hjk rfl) | decide
    simp [this]
  · simp [Nat.testBit_two_pow, hi]

/-! ## The command codes are distinct -/

theorem readb_ne_ok : T_READB_INS ≠ T_OK := by decide

theorem writeb_ne_ok : T_WRITEB_INS ≠ T_OK := by decide

theorem writeb_ne_readb : T_WRITEB_INS ≠ T_READB_INS := by decide

theorem stop_ne_ok : T_STOP ≠ T_OK := by decide

theorem stop_ne_readb : T_STOP ≠ T_READB_INS := by decide

theorem stop_ne_writeb : T_STOP ≠ T_WRITEB_INS := by decide

theorem resume_ne_ok : T_RESUME ≠ T_OK := by decide

theorem resume_ne_readb : T_RESUME ≠ T_READB_INS := by decide

theorem resume_ne_writeb : T_RESUME ≠ T_WRITEB_INS := by decide

theorem resume_ne_stop : T_RESUME ≠ T_STOP := by decide

theorem resume_ne_exit : T_RESUME ≠ T_EXIT := by decide

theorem step_ne_ok : T_STEP ≠ T_OK := by decide

theorem step_ne_readb : T_STEP ≠ T_READB_INS := by decide

theorem step_ne_writeb : T_STEP ≠ T_WRITEB_INS := by decide

theorem step_ne_stop : T_STEP ≠ T_STOP := by decide

theorem step_ne_exit : T_STEP ≠ T_EXIT := by decide

/-! ## Lookup -/

/-- The lookup `find_proc` finds nothing exactly when no scanned slot is in use, not a
zombie and carries the pid. -/
theorem find_proc_eq_none_iff (NR_PROCS : Nat) (mproc : Table) (lpid : Int) :
    find_proc NR_PROCS mproc lpid = none ↔
      ∀ i, i < NR_PROCS →
        ¬ ((mproc i).mp_flags &&& IN_USE ≠ 0 ∧ (mproc i).mp_flags &&& ZOMBIE = 0 ∧
            (mproc i).mp_pid = lpid) := by
  unfold find_proc
  rw [List.find?_eq_none]
  constructor
  · intro h i hi hc
    have := h i (List.mem_range.2 hi)
    apply this
    simp only [decide_eq_true_eq]
    exact ⟨(flags_live_iff _).2 ⟨hc.1, hc.2.1⟩, hc.2.2⟩
  · intro h i hi
    have hlt := List.mem_range.1 hi
    simp only [decide_eq_true_eq]
    intro hc
    exact h i hlt ⟨((flags_live_iff _).1 hc.1).1, ((flags_live_iff _).1 hc.1).2, hc.2⟩

/-! ## Requests that are refused -/

/-- C1: a request other than `T_OK`, `T_READB_INS`, `T_WRITEB_INS` whose pid
resolves to an entry whose parent is not the caller returns `ESRCH`; the only
call made is the lookup (no `sys_trace`, `sig_proc` or `exit_proc`), and the
process table, the caller's reply slot included, is unchanged. -/
theorem do_trace_not_child (K : Collaborators) (NR_PROCS : Nat) (mproc : Table) (who_p : Nat)
    (m_in : Message) (child : Nat)
    (hok : m_in.request ≠ T_OK) (hrd : m_in.request ≠ T_READB_INS)
    (hwr : m_in.request ≠ T_WRITEB_INS)
    (hfind : find_proc NR_PROCS mproc m_in.pid = some child)
    (hparent : (mproc child).mp_parent ≠ who_p) :
    (do_trace K NR_PROCS mproc who_p m_in).ret = ESRCH ∧
    (do_trace K NR_PROCS mproc who_p m_in).calls = [⟨Call.find_proc m_in.pid, mproc⟩] ∧
    (do_trace K NR_PROCS mproc who_p m_in).mproc = mproc := by
  simp [do_trace, hok, hrd, hwr, hfind, hparent]

theorem do_trace_not_child_witness :
    find_proc 4 (demo_table 7 IN_USE 0) 11 = some 3 ∧
    ((demo_table 7 IN_USE 0) 3).mp_parent ≠ 1 ∧
    (do_trace (demo_relay OK) 4 (demo_table 7 IN_USE 0) 1 ⟨T_RESUME, 11, 0, 0⟩).ret = ESRCH :=
  ⟨by decide, by decide,
   (do_trace_not_child (demo_relay OK) 4 (demo_table 7 IN_USE 0) 1 ⟨T_RESUME, 11, 0, 0⟩ 3
      (by decide) (by decide) (by decide) (by decide) (by decide)).1⟩

/-- C2, at the input that refutes it: `T_OK` carrying a pid that matches no
entry returns `OK`, not `ESRCH`, although it is neither of the raw-memory
commands. -/
theorem do_trace_absent_pid_counterexample :
    (∀ i, i < 4 →
      ¬ (((demo_table 7 IN_USE 0) i).mp_flags &&& IN_USE ≠ 0 ∧
          ((demo_table 7 IN_USE 0) i).mp_flags &&& ZOMBIE = 0 ∧
          ((demo_table 7 IN_USE 0) i).mp_pid = 99)) ∧
    T_OK ≠ T_READB_INS ∧ T_OK ≠ T_WRITEB_INS ∧
    (do_trace (demo_relay OK) 4 (demo_table 7 IN_USE 0) 1 ⟨T_OK, 99, 0, 0⟩).ret = OK ∧
    (do_trace (demo_relay OK) 4 (demo_table 7 IN_USE 0) 1 ⟨T_OK, 99, 0, 0⟩).ret ≠ ESRCH := by
  refine ⟨by decide, by decide, by decide, by decide, by decide⟩

/-- C2, amended: for every request other than `T_OK` whose pid matches no
entry that is `IN_USE` and not `ZOMBIE`, `do_trace` returns `EPERM` when the
command is `T_READB_INS` or `T_WRITEB_INS` and the caller's effective uid is
not `SUPER_USER`, and `ESRCH` in every other case. -/
theorem do_trace_absent_pid (K : Collaborators) (NR_PROCS : Nat) (mproc : Table) (who_p : Nat)
    (m_in : Message)
    (hok : m_in.request ≠ T_OK)
    (habsent : ∀ i, i < NR_PROCS →
      ¬ ((mproc i).mp_flags &&& IN_USE ≠ 0 ∧ (mproc i).mp_flags &&& ZOMBIE = 0 ∧
          (mproc i).mp_pid = m_in.pid)) :
    ((m_in.request = T_READB_INS ∨ m_in.request = T_WRITEB_INS) ∧
        (mproc who_p).mp_effuid ≠ SUPER_USER →
      (do_trace K NR_PROCS mproc who_p m_in).ret = EPERM) ∧
    (¬ ((m_in.request = T_READB_INS ∨ m_in.request = T_WRITEB_INS) ∧
        (mproc who_p).mp_effuid ≠ SUPER_USER) →
      (do_trace K NR_PROCS mproc who_p m_in).ret = ESRCH) := by
  have hfind := (find_proc_eq_none_iff NR_PROCS mproc m_in.pid).2 habsent
  constructor
  · rintro ⟨hreq | hreq, huid⟩
    · simp [do_trace, hreq, huid, readb_ne_ok]
    · simp [do_trace, hreq, huid, writeb_ne_ok, writeb_ne_readb]
  · intro h
    by_cases hrd : m_in.request = T_READB_INS
    · have huid : (mproc who_p).mp_effuid = SUPER_USER := by
        by_contra hne; exact h ⟨Or.inl hrd, hne⟩
      simp [do_trace, hrd, huid, hfind, readb_ne_ok]
    · by_cases hwr : m_in.request = T_WRITEB_INS
      · have huid : (mproc who_p).mp_effuid = SUPER_USER := by
          by_contra hne; exact h ⟨Or.inr hwr, hne⟩
        simp [do_trace, hwr, huid, hfind, writeb_ne_ok, writeb_ne_readb]
      · simp [do_trace, hok, hrd, hwr, hfind]

theorem do_trace_absent_pid_witness :
    (∀ i, i < 4 →
      ¬ (((demo_table 7 IN_USE 0) i).mp_flags &&& IN_USE ≠ 0 ∧
          ((demo_table 7 IN_USE 0) i).mp_flags &&& ZOMBIE = 0 ∧
          ((demo_table 7 IN_USE 0) i).mp_pid = 99)) ∧
    (do_trace (demo_relay OK) 4 (demo_table 7 IN_USE 0) 1 ⟨T_WRITEB_INS, 99, 0, 0⟩).ret = EPERM ∧
    (do_trace (demo_relay OK) 4 (demo_table 7 IN_USE 0) 1 ⟨T_STOP, 99, 0, 0⟩).ret = ESRCH :=
  ⟨by decide,
   (do_trace_absent_pid (demo_relay OK) 4 (demo_table 7 IN_USE 0) 1 ⟨T_WRITEB_INS, 99, 0, 0⟩
      (by decide) (by decide)).1 ⟨Or.inr rfl, by decide⟩,
   (do_trace_absent_pid (demo_relay OK) 4 (demo_table 7 IN_USE 0) 1 ⟨T_STOP, 99, 0, 0⟩
      (by decide) (by decide)).2 (by decide)⟩

/-- C3: `T_READB_INS` or `T_WRITEB_INS` from a caller whose effective uid is
not `SUPER_USER` returns `EPERM` for every pid, address and data, with no
call at all (no lookup, no `sys_trace`) and with the process table, the
caller's reply slot included, unchanged. -/
theorem do_trace_raw_not_superuser (K : Collaborators) (NR_PROCS : Nat) (mproc : Table)
    (who_p : Nat) (m_in : Message)
    (hreq : m_in.request = T_READB_INS ∨ m_in.request = T_WRITEB_INS)
    (huid : (mproc who_p).mp_effuid ≠ SUPER_USER) :
    (do_trace K NR_PROCS mproc who_p m_in).ret = EPERM ∧
    (do_trace K NR_PROCS mproc who_p m_in).calls = [] ∧
    (do_trace K NR_PROCS mproc who_p m_in).mproc = mproc := by
  rcases hreq with hreq | hreq <;>
    simp [do_trace, hreq, huid, readb_ne_ok, writeb_ne_ok, writeb_ne_readb]

theorem do_trace_raw_not_superuser_witness :
    ((demo_table 7 IN_USE 0) 1).mp_effuid ≠ SUPER_USER ∧
    (do_trace (demo_relay OK) 4 (demo_table 7 IN_USE 0) 1 ⟨T_WRITEB_INS, 10, 64, 3⟩).ret = EPERM ∧
    (do_trace (demo_relay OK) 4 (demo_table 7 IN_USE 0) 1 ⟨T_WRITEB_INS, 10, 64, 3⟩).calls = [] :=
  ⟨by decide,
   (do_trace_raw_not_superuser (demo_relay OK) 4 (demo_table 7 IN_USE 0) 1
      ⟨T_WRITEB_INS, 10, 64, 3⟩ (Or.inr rfl) (by decide)).1,
   (do_trace_raw_not_superuser (demo_relay OK) 4 (demo_table 7 IN_USE 0) 1
      ⟨T_WRITEB_INS, 10, 64, 3⟩ (Or.inr rfl) (by decide)).2.1⟩

/-! ## The relay tail -/

/-- The relay tail appends exactly one `sys_trace` call to the log. -/
theorem relay_calls (K : Collaborators) (mproc : Table) (who_p : Nat) (m_in : Message)
    (child : Nat) (calls : List Event) :
    (relay K mproc who_p m_in child calls).calls =
      calls ++
        [⟨Call.sys_trace m_in.request (mproc child).mp_endpoint m_in.taddr (some m_in.data),
          mproc⟩] := by
  by_cases h : (K.sys_trace m_in.request (mproc child).mp_endpoint m_in.taddr
      (some m_in.data)).1 = OK <;> simp [relay, h]

/-- When the relay succeeds, the tail returns `OK` and stores the returned
value in the caller's `reply_trace`. -/
theorem relay_ok (K : Collaborators) (mproc : Table) (who_p : Nat) (m_in : Message)
    (child : Nat) (calls : List Event)
    (h : (K.sys_trace m_in.request (mproc child).mp_endpoint m_in.taddr (some m_in.data)).1
      = OK) :
    (relay K mproc who_p m_in child calls).ret = OK ∧
    (relay K mproc who_p m_in child calls).mproc =
      set_reply_trace mproc who_p
        (K.sys_trace m_in.request (mproc child).mp_endpoint m_in.taddr (some m_in.data)).2 := by
  simp [relay, h]

/-- When the relay fails, the tail returns its error and writes nothing. -/
theorem relay_fail (K : Collaborators) (mproc : Table) (who_p : Nat) (m_in : Message)
    (child : Nat) (calls : List Event)
    (h : (K.sys_trace m_in.request (mproc child).mp_endpoint m_in.taddr (some m_in.data)).1
      ≠ OK) :
    (relay K mproc who_p m_in child calls).ret =
      (K.sys_trace m_in.request (mproc child).mp_endpoint m_in.taddr (some m_in.data)).1 ∧
    (relay K mproc who_p m_in child calls).mproc = mproc := by
  simp [relay, h]

/-- The relay tail changes no flags. -/
theorem relay_mp_flags (K : Collaborators) (mproc : Table) (who_p : Nat) (m_in : Message)
    (child : Nat) (calls : List Event) (i : Nat) :
    ((relay K mproc who_p m_in child calls).mproc i).mp_flags = (mproc i).mp_flags := by
  by_cases h : (K.sys_trace m_in.request (mproc child).mp_endpoint m_in.taddr
      (some m_in.data)).1 = OK
  · by_cases hi : i = who_p
    · subst hi; simp [relay, h, set_reply_trace]
    · simp [relay, h, set_reply_trace, Function.update_noteq hi]
  · simp [relay, h]

/-- A signal number in range survives the cast to `int`. -/
theorem int_cast_signal (x : Int) (hlo : 0 ≤ x) (hhi : x ≤ _NSIG) : int_cast x = x := by
  unfold int_cast
  unfold _NSIG at hhi
  omega

/-! ## The body of `T_RESUME` and `T_STEP` -/

/-- Reading the flags back after `p->mp_flags &= ~m`. -/
theorem clear_flags_self (mproc : Table) (p m : Nat) :
    ((clear_flags mproc p m) p).mp_flags = (mproc p).mp_flags &&& bitnot m := by
  simp [clear_flags]

/-- Reading the flags back after `p->mp_flags |= m`. -/
theorem set_flags_self (mproc : Table) (p m : Nat) :
    ((set_flags mproc p m) p).mp_flags = (mproc p).mp_flags ||| m := by
  simp [set_flags]

/-- With a positive signal number in range, `do_trace` clears `TRACED`, calls
`sig_proc`, sets `TRACED`, clears `STOPPED` and enters the relay tail. -/
theorem do_trace_resume_signal_body (K : Collaborators) (NR_PROCS : Nat) (mproc : Table)
    (who_p : Nat) (m_in : Message) (child : Nat)
    (hreq : m_in.request = T_RESUME ∨ m_in.request = T_STEP)
    (hfind : find_proc NR_PROCS mproc m_in.pid = some child)
    (hparent : (mproc child).mp_parent = who_p)
    (hstopped : (mproc child).mp_flags &&& STOPPED ≠ 0)
    (hsig : ¬ (mproc child).mp_sigstatus > 0)
    (hpos : 0 < m_in.data) (hhi : m_in.data ≤ _NSIG) :
    do_trace K NR_PROCS mproc who_p m_in =
      relay K
        (clear_flags
          (set_flags (K.sig_proc (clear_flags mproc child TRACED) child m_in.data) child TRACED)
          child STOPPED)
        who_p m_in child
        [⟨Call.find_proc m_in.pid, mproc⟩,
         ⟨Call.sig_proc child m_in.data, clear_flags mproc child TRACED⟩] := by
  have hcast : int_cast m_in.data = m_in.data := int_cast_signal _ (le_of_lt hpos) hhi
  have h1 : ¬ m_in.data < 0 := not_lt.2 (le_of_lt hpos)
  have h2 : ¬ m_in.data > _NSIG := not_lt.2 hhi
  rcases hreq with hreq | hreq <;>
    simp [do_trace, hreq, hfind, hparent, hstopped, hsig, hpos, h1, h2, hcast, resume_ne_ok,
      resume_ne_readb, resume_ne_writeb, resume_ne_stop, resume_ne_exit, step_ne_ok,
      step_ne_readb, step_ne_writeb, step_ne_stop, step_ne_exit]

/-- With signal number 0, `do_trace` clears `STOPPED` and enters the relay
tail. -/
theorem do_trace_resume_plain_body (K : Collaborators) (NR_PROCS : Nat) (mproc : Table)
    (who_p : Nat) (m_in : Message) (child : Nat)
    (hreq : m_in.request = T_RESUME ∨ m_in.request = T_STEP)
    (hfind : find_proc NR_PROCS mproc m_in.pid = some child)
    (hparent : (mproc child).mp_parent = who_p)
    (hstopped : (mproc child).mp_flags &&& STOPPED ≠ 0)
    (hsig : ¬ (mproc child).mp_sigstatus > 0)
    (hzero : m_in.data = 0) :
    do_trace K NR_PROCS mproc who_p m_in =
      relay K (clear_flags mproc child STOPPED) who_p m_in child
        [⟨Call.find_proc m_in.pid, mproc⟩] := by
  have h2 : ¬ (0 : Int) > _NSIG := by decide
  rcases hreq with hreq | hreq <;>
    simp [do_trace, hreq, hfind, hparent, hstopped, hsig, hzero, h2, resume_ne_ok,
      resume_ne_readb, resume_ne_writeb, resume_ne_stop, resume_ne_exit, step_ne_ok,
      step_ne_readb, step_ne_writeb, step_ne_stop, step_ne_exit]

/-! ## The privileged raw-memory commands -/

/-- C4: `T_READB_INS` or `T_WRITEB_INS` from a superuser whose pid resolves,
with no condition on the target's parent, `STOPPED` flag or `mp_sigstatus`:
after the lookup exactly one `sys_trace` call is made, carrying the request's
command, the target's endpoint, the request's address and data. If it returns
`OK`, `do_trace` returns `OK` and the only change to the process table is that
the caller's `reply_trace` holds the data returned by the relay. If it
returns an error, `do_trace` returns that error and the table is unchanged. -/
theorem do_trace_raw_superuser (K : Collaborators) (NR_PROCS : Nat) (mproc : Table)
    (who_p : Nat) (m_in : Message) (child : Nat)
    (hreq : m_in.request = T_READB_INS ∨ m_in.request = T_WRITEB_INS)
    (huid : (mproc who_p).mp_effuid = SUPER_USER)
    (hfind : find_proc NR_PROCS mproc m_in.pid = some child) :
    (do_trace K NR_PROCS mproc who_p m_in).calls =
      [⟨Call.find_proc m_in.pid, mproc⟩,
       ⟨Call.sys_trace m_in.request (mproc child).mp_endpoint m_in.taddr (some m_in.data),
        mproc⟩] ∧
    ((K.sys_trace m_in.request (mproc child).mp_endpoint m_in.taddr (some m_in.data)).1 = OK →
      (do_trace K NR_PROCS mproc who_p m_in).ret = OK ∧
      ((do_trace K NR_PROCS mproc who_p m_in).mproc who_p).mp_reply.reply_trace =
        (K.sys_trace m_in.request (mproc child).mp_endpoint m_in.taddr (some m_in.data)).2 ∧
      (do_trace K NR_PROCS mproc who_p m_in).mproc =
        set_reply_trace mproc who_p
          (K.sys_trace m_in.request (mproc child).mp_endpoint m_in.taddr (some m_in.data)).2) ∧
    ((K.sys_trace m_in.request (mproc child).mp_endpoint m_in.taddr (some m_in.data)).1 ≠ OK →
      (do_trace K NR_PROCS mproc who_p m_in).ret =
        (K.sys_trace m_in.request (mproc child).mp_endpoint m_in.taddr (some m_in.data)).1 ∧
      (do_trace K NR_PROCS mproc who_p m_in).mproc = mproc) := by
  have hbody : do_trace K NR_PROCS mproc who_p m_in =
      relay K mproc who_p m_in child [⟨Call.find_proc m_in.pid, mproc⟩] := by
    rcases hreq with hreq | hreq <;>
      simp [do_trace, hreq, huid, hfind, readb_ne_ok, writeb_ne_ok, writeb_ne_readb]
  rw [hbody]
  refine ⟨?_, ?_, ?_⟩
  · rw [relay_calls]; rfl
  · intro hr
    have h := relay_ok K mproc who_p m_in child [⟨Call.find_proc m_in.pid, mproc⟩] hr
    refine ⟨h.1, ?_, h.2⟩
    rw [h.2]; simp [set_reply_trace]
  · intro hr
    exact relay_fail K mproc who_p m_in child [⟨Call.find_proc m_in.pid, mproc⟩] hr

theorem do_trace_raw_superuser_witness :
    ((demo_table SUPER_USER IN_USE 0) 1).mp_effuid = SUPER_USER ∧
    find_proc 4 (demo_table SUPER_USER IN_USE 0) 11 = some 3 ∧
    (do_trace (demo_relay OK) 4 (demo_table SUPER_USER IN_USE 0) 1
        ⟨T_READB_INS, 11, 64, 3⟩).calls =
      [⟨Call.find_proc 11, demo_table SUPER_USER IN_USE 0⟩,
       ⟨Call.sys_trace T_READB_INS 111 64 (some 3), demo_table SUPER_USER IN_USE 0⟩] :=
  ⟨by decide, by decide,
   (do_trace_raw_superuser (demo_relay OK) 4 (demo_table SUPER_USER IN_USE 0) 1
      ⟨T_READB_INS, 11, 64, 3⟩ 3 (Or.inl rfl) (by decide) (by decide)).1⟩

/-! ## `T_STOP` -/

/-- C5: `T_STOP` on a child of the caller when the relay call
`sys_trace(T_STOP, child endpoint, 0, null)` returns `OK`: `do_trace` returns
`OK` after the lookup and exactly that one relay call; the child's flags are
its previous flags with `STOPPED` set, its `mp_sigstatus` is 0, the caller's
`reply_trace` is 0, and the table is otherwise the one before the call. -/
theorem do_trace_stop_ok (K : Collaborators) (NR_PROCS : Nat) (mproc : Table) (who_p : Nat)
    (m_in : Message) (child : Nat)
    (hreq : m_in.request = T_STOP)
    (hfind : find_proc NR_PROCS mproc m_in.pid = some child)
    (hparent : (mproc child).mp_parent = who_p)
    (hrelay : (K.sys_trace T_STOP (mproc child).mp_endpoint 0 none).1 = OK) :
    (do_trace K NR_PROCS mproc who_p m_in).ret = OK ∧
    (do_trace K NR_PROCS mproc who_p m_in).calls =
      [⟨Call.find_proc m_in.pid, mproc⟩,
       ⟨Call.sys_trace T_STOP (mproc child).mp_endpoint 0 none, mproc⟩] ∧
    ((do_trace K NR_PROCS mproc who_p m_in).mproc child).mp_flags =
      (mproc child).mp_flags ||| STOPPED ∧
    ((do_trace K NR_PROCS mproc who_p m_in).mproc child).mp_sigstatus = 0 ∧
    ((do_trace K NR_PROCS mproc who_p m_in).mproc who_p).mp_reply.reply_trace = 0 ∧
    (∀ i, i ≠ child → i ≠ who_p → (do_trace K NR_PROCS mproc who_p m_in).mproc i = mproc i) ∧
    (do_trace K NR_PROCS mproc who_p m_in).mproc =
      set_reply_trace (set_sigstatus (set_flags mproc child STOPPED) child 0) who_p 0 := by
  have hbody : (do_trace K NR_PROCS mproc who_p m_in) =
      ⟨OK, set_reply_trace (set_sigstatus (set_flags mproc child STOPPED) child 0) who_p 0,
       [⟨Call.find_proc m_in.pid, mproc⟩,
        ⟨Call.sys_trace T_STOP (mproc child).mp_endpoint 0 none, mproc⟩]⟩ := by
    simp [do_trace, hreq, hfind, hparent, hrelay, stop_ne_ok, stop_ne_readb, stop_ne_writeb]
  rw [hbody]
  refine ⟨rfl, rfl, ?_, ?_, ?_, ?_, rfl⟩
  · by_cases hc : child = who_p
    · subst hc; simp [set_reply_trace, set_sigstatus, set_flags]
    · simp [set_reply_trace, set_sigstatus, set_flags, Function.update_noteq hc]
  · by_cases hc : child = who_p
    · subst hc; simp [set_reply_trace, set_sigstatus, set_flags]
    · simp [set_reply_trace, set_sigstatus, set_flags, Function.update_noteq hc]
  · simp [set_reply_trace]
  · intro i hi hw
    simp [set_reply_trace, set_sigstatus, set_flags, Function.update_noteq hi,
      Function.update_noteq hw]

theorem do_trace_stop_ok_witness :
    find_proc 4 (demo_table 7 IN_USE 9) 10 = some 2 ∧
    ((demo_table 7 IN_USE 9) 2).mp_parent = 1 ∧
    (do_trace (demo_relay OK) 4 (demo_table 7 IN_USE 9) 1 ⟨T_STOP, 10, 0, 0⟩).ret = OK ∧
    ((do_trace (demo_relay OK) 4 (demo_table 7 IN_USE 9) 1 ⟨T_STOP, 10, 0, 0⟩).mproc
        2).mp_sigstatus = 0 :=
  ⟨by decide, by decide,
   (do_trace_stop_ok (demo_relay OK) 4 (demo_table 7 IN_USE 9) 1 ⟨T_STOP, 10, 0, 0⟩ 2
      rfl (by decide) (by decide) rfl).1,
   (do_trace_stop_ok (demo_relay OK) 4 (demo_table 7 IN_USE 9) 1 ⟨T_STOP, 10, 0, 0⟩ 2
      rfl (by decide) (by decide) rfl).2.2.2.1⟩

/-- C6: `T_STOP` on a child of the caller when the relay call returns an error
`r`: `do_trace` returns `r` and the process table is the one before the call,
so the child's `STOPPED` flag and `mp_sigstatus` are what they were and a
child that was not stopped is not stopped. -/
theorem do_trace_stop_fail (K : Collaborators) (NR_PROCS : Nat) (mproc : Table) (who_p : Nat)
    (m_in : Message) (child : Nat)
    (hreq : m_in.request = T_STOP)
    (hfind : find_proc NR_PROCS mproc m_in.pid = some child)
    (hparent : (mproc child).mp_parent = who_p)
    (hrelay : (K.sys_trace T_STOP (mproc child).mp_endpoint 0 none).1 ≠ OK) :
    (do_trace K NR_PROCS mproc who_p m_in).ret =
      (K.sys_trace T_STOP (mproc child).mp_endpoint 0 none).1 ∧
    (do_trace K NR_PROCS mproc who_p m_in).mproc = mproc ∧
    ((do_trace K NR_PROCS mproc who_p m_in).mproc child).mp_flags = (mproc child).mp_flags ∧
    ((do_trace K NR_PROCS mproc who_p m_in).mproc child).mp_sigstatus =
      (mproc child).mp_sigstatus ∧
    ((mproc child).mp_flags &&& STOPPED = 0 →
      ((do_trace K NR_PROCS mproc who_p m_in).mproc child).mp_flags &&& STOPPED = 0) ∧
    (do_trace K NR_PROCS mproc who_p m_in).calls =
      [⟨Call.find_proc m_in.pid, mproc⟩,
       ⟨Call.sys_trace T_STOP (mproc child).mp_endpoint 0 none, mproc⟩] := by
  have hbody : (do_trace K NR_PROCS mproc who_p m_in) =
      ⟨(K.sys_trace T_STOP (mproc child).mp_endpoint 0 none).1, mproc,
       [⟨Call.find_proc m_in.pid, mproc⟩,
        ⟨Call.sys_trace T_STOP (mproc child).mp_endpoint 0 none, mproc⟩]⟩ := by
    simp [do_trace, hreq, hfind, hparent, hrelay, stop_ne_ok, stop_ne_readb, stop_ne_writeb]
  rw [hbody]
  exact ⟨rfl, rfl, rfl, rfl, fun h => h, rfl⟩

theorem do_trace_stop_fail_witness :
    find_proc 4 (demo_table 7 IN_USE 9) 10 = some 2 ∧
    ((demo_table 7 IN_USE 9) 2).mp_parent = 1 ∧
    ((demo_relay EPERM).sys_trace T_STOP ((demo_table 7 IN_USE 9) 2).mp_endpoint 0 none).1 ≠ OK ∧
    (do_trace (demo_relay EPERM) 4 (demo_table 7 IN_USE 9) 1 ⟨T_STOP, 10, 0, 0⟩).ret = EPERM ∧
    (do_trace (demo_relay EPERM) 4 (demo_table 7 IN_USE 9) 1 ⟨T_STOP, 10, 0, 0⟩).mproc =
      demo_table 7 IN_USE 9 :=
  ⟨by decide, by decide, by decide,
   (do_trace_stop_fail (demo_relay EPERM) 4 (demo_table 7 IN_USE 9) 1 ⟨T_STOP, 10, 0, 0⟩ 2
      rfl (by decide) (by decide) (by decide)).1,
   (do_trace_stop_fail (demo_relay EPERM) 4 (demo_table 7 IN_USE 9) 1 ⟨T_STOP, 10, 0, 0⟩ 2
      rfl (by decide) (by decide) (by decide)).2.1⟩

/-! ## The stop-state precondition -/

/-- C7: a request whose command is none of `T_OK`, `T_READB_INS`,
`T_WRITEB_INS`, `T_STOP`, on a child of the caller whose `STOPPED` flag is
clear or whose `mp_sigstatus` is greater than 0, returns `ESRCH`; the only
call made is the lookup (no `sys_trace`, `sig_proc` or `exit_proc`) and the
process table is unchanged. -/
theorem do_trace_not_stopped (K : Collaborators) (NR_PROCS : Nat) (mproc : Table) (who_p : Nat)
    (m_in : Message) (child : Nat)
    (hok : m_in.request ≠ T_OK) (hrd : m_in.request ≠ T_READB_INS)
    (hwr : m_in.request ≠ T_WRITEB_INS) (hstop : m_in.request ≠ T_STOP)
    (hfind : find_proc NR_PROCS mproc m_in.pid = some child)
    (hparent : (mproc child).mp_parent = who_p)
    (hstate : (mproc child).mp_flags &&& STOPPED = 0 ∨ (mproc child).mp_sigstatus > 0) :
    (do_trace K NR_PROCS mproc who_p m_in).ret = ESRCH ∧
    (do_trace K NR_PROCS mproc who_p m_in).calls = [⟨Call.find_proc m_in.pid, mproc⟩] ∧
    (do_trace K NR_PROCS mproc who_p m_in).mproc = mproc := by
  simp [do_trace, hok, hrd, hwr, hstop, hfind, hparent, hstate]

theorem do_trace_not_stopped_witness :
    find_proc 4 (demo_table 7 (IN_USE ||| TRACED ||| STOPPED) 9) 10 = some 2 ∧
    ((demo_table 7 (IN_USE ||| TRACED ||| STOPPED) 9) 2).mp_sigstatus > 0 ∧
    (do_trace (demo_relay OK) 4 (demo_table 7 (IN_USE ||| TRACED ||| STOPPED) 9) 1
        ⟨T_EXIT, 10, 0, 0⟩).ret = ESRCH :=
  ⟨by decide, by decide,
   (do_trace_not_stopped (demo_relay OK) 4 (demo_table 7 (IN_USE ||| TRACED ||| STOPPED) 9) 1
      ⟨T_EXIT, 10, 0, 0⟩ 2 (by decide) (by decide) (by decide) (by decide) (by decide)
      (by decide) (Or.inr (by decide))).1⟩

/-! ## `T_RESUME` and `T_STEP` -/

/-- C8: `T_RESUME` or `T_STEP` on a stopped child of the caller with no
pending `mp_sigstatus`, with data below 0 or above `_NSIG`, returns `EIO`;
the only call made is the lookup (no `sys_trace`, no `sig_proc`) and the
process table, the child's flags included, is unchanged. -/
theorem do_trace_resume_bad_signal (K : Collaborators) (NR_PROCS : Nat) (mproc : Table)
    (who_p : Nat) (m_in : Message) (child : Nat)
    (hreq : m_in.request = T_RESUME ∨ m_in.request = T_STEP)
    (hfind : find_proc NR_PROCS mproc m_in.pid = some child)
    (hparent : (mproc child).mp_parent = who_p)
    (hstopped : (mproc child).mp_flags &&& STOPPED ≠ 0)
    (hsig : ¬ (mproc child).mp_sigstatus > 0)
    (hdata : m_in.data < 0 ∨ m_in.data > _NSIG) :
    (do_trace K NR_PROCS mproc who_p m_in).ret = EIO ∧
    (do_trace K NR_PROCS mproc who_p m_in).calls = [⟨Call.find_proc m_in.pid, mproc⟩] ∧
    (do_trace K NR_PROCS mproc who_p m_in).mproc = mproc ∧
    ((do_trace K NR_PROCS mproc who_p m_in).mproc child).mp_flags = (mproc child).mp_flags := by
  have hbody : do_trace K NR_PROCS mproc who_p m_in =
      ⟨ EIO, mproc, [⟨Call.find_proc m_in.pid, mproc⟩]⟩ := by
    rcases hreq with hreq | hreq <;>
      simp [do_trace, hreq, hfind, hparent, hstopped, hsig, hdata, resume_ne_ok,
        resume_ne_readb, resume_ne_writeb, resume_ne_stop, resume_ne_exit, step_ne_ok,
        step_ne_readb, step_ne_writeb, step_ne_stop, step_ne_exit]
  rw [hbody]
  exact ⟨rfl, rfl, rfl, rfl⟩

theorem do_trace_resume_bad_signal_witness :
    find_proc 4 (demo_table 7 (IN_USE ||| TRACED ||| STOPPED) 0) 10 = some 2 ∧
    (21 : Int) > _NSIG ∧
    (do_trace (demo_relay OK) 4 (demo_table 7 (IN_USE ||| TRACED ||| STOPPED) 0) 1
        ⟨T_STEP, 10, 0, 21⟩).ret = EIO :=
  ⟨by decide, by decide,
   (do_trace_resume_bad_signal (demo_relay OK) 4
      (demo_table 7 (IN_USE ||| TRACED ||| STOPPED) 0) 1 ⟨T_STEP, 10, 0, 21⟩ 2
      (Or.inr rfl) (by decide) (by decide) (by decide) (by decide) (Or.inr (by decide))).1⟩

/-- C9, at the input that refutes it: a child that is `STOPPED` but not
`TRACED` (the entry a successful `T_STOP` leaves for an untraced child, first
conjunct) is resumed with signal 1; its `TRACED` flag is clear before the call
and set after it. -/
theorem do_trace_resume_traced_counterexample :
    ((do_trace (demo_relay OK) 4 (demo_table 7 IN_USE 0) 1 ⟨T_STOP, 10, 0, 0⟩).mproc 2) =
      (demo_table 7 (IN_USE ||| STOPPED) 0) 2 ∧
    find_proc 4 (demo_table 7 (IN_USE ||| STOPPED) 0) 10 = some 2 ∧
    ((demo_table 7 (IN_USE ||| STOPPED) 0) 2).mp_parent = 1 ∧
    ((demo_table 7 (IN_USE ||| STOPPED) 0) 2).mp_flags &&& STOPPED ≠ 0 ∧
    ¬ ((demo_table 7 (IN_USE ||| STOPPED) 0) 2).mp_sigstatus > 0 ∧
    (0 : Int) < 1 ∧ (1 : Int) ≤ _NSIG ∧
    ((demo_table 7 (IN_USE ||| STOPPED) 0) 2).mp_flags &&& TRACED = 0 ∧
    ((do_trace (demo_relay OK) 4 (demo_table 7 (IN_USE ||| STOPPED) 0) 1
        ⟨T_RESUME, 10, 0, 1⟩).mproc 2).mp_flags &&& TRACED = TRACED ∧
    ((do_trace (demo_relay OK) 4 (demo_table 7 (IN_USE ||| STOPPED) 0) 1
        ⟨T_RESUME, 10, 0, 1⟩).mproc 2).mp_flags &&& TRACED ≠
      ((demo_table 7 (IN_USE ||| STOPPED) 0) 2).mp_flags &&& TRACED := by
  refine ⟨by decide, by decide, by decide, by decide, by decide, by decide, by decide,
    by decide, by decide, by decide⟩

/-- C9, amended: after `T_RESUME` or `T_STEP` with a positive in-range signal
number on a stopped child of the caller with no pending `mp_sigstatus`, the
child's `TRACED` flag is set, whatever the child's flags were and whatever
`sig_proc` and the relay did; so it equals its value before the call whenever
the child was `TRACED` before the call. -/
theorem do_trace_resume_traced (K : Collaborators) (NR_PROCS : Nat) (mproc : Table)
    (who_p : Nat) (m_in : Message) (child : Nat)
    (hreq : m_in.request = T_RESUME ∨ m_in.request = T_STEP)
    (hfind : find_proc NR_PROCS mproc m_in.pid = some child)
    (hparent : (mproc child).mp_parent = who_p)
    (hstopped : (mproc child).mp_flags &&& STOPPED ≠ 0)
    (hsig : ¬ (mproc child).mp_sigstatus > 0)
    (hpos : 0 < m_in.data) (hhi : m_in.data ≤ _NSIG) :
    ((do_trace K NR_PROCS mproc who_p m_in).mproc child).mp_flags &&& TRACED = TRACED ∧
    ((mproc child).mp_flags &&& TRACED ≠ 0 →
      ((do_trace K NR_PROCS mproc who_p m_in).mproc child).mp_flags &&& TRACED =
        (mproc child).mp_flags &&& TRACED) := by
  have hset : ((do_trace K NR_PROCS mproc who_p m_in).mproc child).mp_flags &&& TRACED
      = TRACED := by
    rw [do_trace_resume_signal_body K NR_PROCS mproc who_p m_in child hreq hfind hparent
      hstopped hsig hpos hhi, relay_mp_flags, clear_flags_self, set_flags_self]
    exact or_and_bitnot_keep _ 6 7 (by decide) (by decide) (by decide)
  refine ⟨hset, fun hbefore => ?_⟩
  rw [hset]
  rcases and_two_pow_cases (mproc child).mp_flags 6 with h | h
  · exact absurd h hbefore
  · exact h.symm

theorem do_trace_resume_traced_witness :
    find_proc 4 (demo_table 7 (IN_USE ||| TRACED ||| STOPPED) 0) 10 = some 2 ∧
    (0 : Int) < 3 ∧ (3 : Int) ≤ _NSIG ∧
    ((do_trace (demo_relay OK) 4 (demo_table 7 (IN_USE ||| TRACED ||| STOPPED) 0) 1
        ⟨T_RESUME, 10, 0, 3⟩).mproc 2).mp_flags &&& TRACED = TRACED :=
  ⟨by decide, by decide, by decide,
   (do_trace_resume_traced (demo_relay OK) 4
      (demo_table 7 (IN_USE ||| TRACED ||| STOPPED) 0) 1 ⟨T_RESUME, 10, 0, 3⟩ 2
      (Or.inl rfl) (by decide) (by decide) (by decide) (by decide) (by decide) (by decide)).1⟩

/-- C10: `T_RESUME` or `T_STEP` with data in `[0, _NSIG]` on a stopped child
of the caller with no pending `mp_sigstatus`. Let `t1` be the table with the
child's `TRACED` cleared and `t2` the table at the relay call. Then
`sig_proc(child, data)` is called exactly once when data is positive, on `t1`
(so while `TRACED` is clear), and not at all when data is 0; `STOPPED` is
clear in `t2`, the table of the single `sys_trace` call, which carries the
request's command, the child's endpoint, the request's address and data; when
the relay succeeds `do_trace` returns `OK` and the caller's `reply_trace` is
the relay's returned data; when it fails `do_trace` returns the relay's error
and the table is `t2`: `STOPPED` stays clear and `reply_trace` is not
written. -/
theorem do_trace_resume (K : Collaborators) (NR_PROCS : Nat) (mproc : Table)
    (who_p : Nat) (m_in : Message) (child : Nat)
    (hreq : m_in.request = T_RESUME ∨ m_in.request = T_STEP)
    (hfind : find_proc NR_PROCS mproc m_in.pid = some child)
    (hparent : (mproc child).mp_parent = who_p)
    (hstopped : (mproc child).mp_flags &&& STOPPED ≠ 0)
    (hsig : ¬ (mproc child).mp_sigstatus > 0)
    (hlo : 0 ≤ m_in.data) (hhi : m_in.data ≤ _NSIG) :
    ∃ t1 t2 : Table,
      t1 = clear_flags mproc child TRACED ∧
      t2 = clear_flags
        (if 0 < m_in.data then set_flags (K.sig_proc t1 child m_in.data) child TRACED
          else mproc)
        child STOPPED ∧
      (t1 child).mp_flags &&& TRACED = 0 ∧
      (t2 child).mp_flags &&& STOPPED = 0 ∧
      (do_trace K NR_PROCS mproc who_p m_in).calls =
        (if 0 < m_in.data then
          [⟨Call.find_proc m_in.pid, mproc⟩,
           ⟨Call.sig_proc child m_in.data, t1⟩,
           ⟨Call.sys_trace m_in.request (t2 child).mp_endpoint m_in.taddr (some m_in.data),
            t2⟩]
        else
          [⟨Call.find_proc m_in.pid, mproc⟩,
           ⟨Call.sys_trace m_in.request (t2 child).mp_endpoint m_in.taddr (some m_in.data),
            t2⟩]) ∧
      ((K.sys_trace m_in.request (t2 child).mp_endpoint m_in.taddr (some m_in.data)).1 = OK →
        (do_trace K NR_PROCS mproc who_p m_in).ret = OK ∧
        (do_trace K NR_PROCS mproc who_p m_in).mproc =
          set_reply_trace t2 who_p
            (K.sys_trace m_in.request (t2 child).mp_endpoint m_in.taddr (some m_in.data)).2 ∧
        ((do_trace K NR_PROCS mproc who_p m_in).mproc who_p).mp_reply.reply_trace =
          (K.sys_trace m_in.request (t2 child).mp_endpoint m_in.taddr (some m_in.data)).2) ∧
      ((K.sys_trace m_in.request (t2 child).mp_endpoint m_in.taddr (some m_in.data)).1 ≠ OK →
        (do_trace K NR_PROCS mproc who_p m_in).ret =
          (K.sys_trace m_in.request (t2 child).mp_endpoint m_in.taddr (some m_in.data)).1 ∧
        (do_trace K NR_PROCS mproc who_p m_in).mproc = t2) ∧
      ((do_trace K NR_PROCS mproc who_p m_in).mproc child).mp_flags &&& STOPPED = 0 := by
  have hT : ∀ t : Table, ((clear_flags t child TRACED) child).mp_flags &&& TRACED = 0 := by
    intro t
    rw [clear_flags_self]
    exact and_bitnot_clear _ 6 (by decide)
  have hS : ∀ t : Table, ((clear_flags t child STOPPED) child).mp_flags &&& STOPPED = 0 := by
    intro t
    rw [clear_flags_self]
    exact and_bitnot_clear _ 7 (by decide)
  by_cases hpos : 0 < m_in.data
  · have hbody := do_trace_resume_signal_body K NR_PROCS mproc who_p m_in child hreq hfind
      hparent hstopped hsig hpos hhi
    refine ⟨clear_flags mproc child TRACED, _, rfl, rfl, hT _, hS _, ?_, ?_, ?_, ?_⟩
    · rw [hbody, relay_calls]; simp [hpos]
    · intro hr
      simp only [hpos, if_true] at hr ⊢
      rw [hbody]
      have h := relay_ok K _ who_p m_in child
        [⟨Call.find_proc m_in.pid, mproc⟩,
         ⟨Call.sig_proc child m_in.data, clear_flags mproc child TRACED⟩] hr
      refine ⟨h.1, h.2, ?_⟩
      rw [h.2]; simp [set_reply_trace]
    · intro hr
      simp only [hpos, if_true] at hr ⊢
      rw [hbody]
      exact relay_fail K _ who_p m_in child _ hr
    · rw [hbody, relay_mp_flags]
      exact hS _
  · have hzero : m_in.data = 0 := le_antisymm (not_lt.1 hpos) hlo
    have hbody := do_trace_resume_plain_body K NR_PROCS mproc who_p m_in child hreq hfind
      hparent hstopped hsig hzero
    refine ⟨clear_flags mproc child TRACED, _, rfl, rfl, hT _, hS _, ?_, ?_, ?_, ?_⟩
    · rw [hbody, relay_calls]; simp [hpos]
    · intro hr
      simp only [hpos, if_false] at hr ⊢
      rw [hbody]
      have h := relay_ok K _ who_p m_in child [⟨Call.find_proc m_in.pid, mproc⟩] hr
      refine ⟨h.1, h.2, ?_⟩
      rw [h.2]; simp [set_reply_trace]
    · intro hr
      simp only [hpos, if_false] at hr ⊢
      rw [hbody]
      exact relay_fail K _ who_p m_in child _ hr
    · rw [hbody, relay_mp_flags]
      exact hS _

theorem do_trace_resume_witness :
    find_proc 4 (demo_table 7 (IN_USE ||| TRACED ||| STOPPED) 0) 10 = some 2 ∧
    (0 : Int) ≤ 3 ∧ (3 : Int) ≤ _NSIG ∧
    ((do_trace (demo_relay EPERM) 4 (demo_table 7 (IN_USE ||| TRACED ||| STOPPED) 0) 1
        ⟨T_RESUME, 10, 0, 3⟩).mproc 2).mp_flags &&& STOPPED = 0 := by
  obtain ⟨_, _, _, _, _, _, _, _, _, h⟩ :=
    do_trace_resume (demo_relay EPERM) 4 (demo_table 7 (IN_USE ||| TRACED ||| STOPPED) 0) 1
      ⟨T_RESUME, 10, 0, 3⟩ 2 (Or.inl rfl) (by decide) (by decide) (by decide) (by decide)
      (by decide) (by decide)
  exact ⟨by decide, by decide, by decide, h⟩

/-! ## More flag arithmetic and the frame of the assignments -/

/-- Setting a bit leaves a disjoint mask as it was. -/
theorem or_and_of_disjoint (f a b : Nat) (h : b &&& a = 0) : (f ||| a) &&& b = f &&& b := by
  rw [Nat.and_comm, Nat.and_or_distrib_left, h, Nat.or_zero, Nat.and_comm]

/-- Clearing bits outside a mask leaves the mask as it was. -/
theorem and_and_of_absorb (f m b : Nat) (h : m &&& b = b) : (f &&& m) &&& b = f &&& b := by
  rw [Nat.and_assoc, h]

/-- A bit that was just set is set. -/
theorem or_two_pow_and_self (f k : Nat) : (f ||| 2 ^ k) &&& 2 ^ k = 2 ^ k := by
  apply Nat.eq_of_testBit_eq
  intro i
  by_cases hi : k = i
  · subst hi; simp
  · simp [Nat.testBit_two_pow, hi]

@[simp] theorem set_flags_mp_pid (t : Table) (p m i : Nat) :
    ((set_flags t p m) i).mp_pid = (t i).mp_pid := by
  by_cases h : i = p
  · subst h; simp [set_flags]
  · simp [set_flags, Function.update_noteq h]

@[simp] theorem set_flags_mp_parent (t : Table) (p m i : Nat) :
    ((set_flags t p m) i).mp_parent = (t i).mp_parent := by
  by_cases h : i = p
  · subst h; simp [set_flags]
  · simp [set_flags, Function.update_noteq h]

@[simp] theorem set_flags_mp_endpoint (t : Table) (p m i : Nat) :
    ((set_flags t p m) i).mp_endpoint = (t i).mp_endpoint := by
  by_cases h : i = p
  · subst h; simp [set_flags]
  · simp [set_flags, Function.update_noteq h]

@[simp] theorem set_flags_mp_sigstatus (t : Table) (p m i : Nat) :
    ((set_flags t p m) i).mp_sigstatus = (t i).mp_sigstatus := by
  by_cases h : i = p
  · subst h; simp [set_flags]
  · simp [set_flags, Function.update_noteq h]

theorem set_flags_other (t : Table) (p m i : Nat) (h : i ≠ p) : (set_flags t p m) i = t i := by
  simp [set_flags, Function.update_noteq h]

@[simp] theorem clear_flags_mp_pid (t : Table) (p m i : Nat) :
    ((clear_flags t p m) i).mp_pid = (t i).mp_pid := by
  by_cases h : i = p
  · subst h; simp [clear_flags]
  · simp [clear_flags, Function.update_noteq h]

@[simp] theorem clear_flags_mp_parent (t : Table) (p m i : Nat) :
    ((clear_flags t p m) i).mp_parent = (t i).mp_parent := by
  by_cases h : i = p
  · subst h; simp [clear_flags]
  · simp [clear_flags, Function.update_noteq h]

@[simp] theorem clear_flags_mp_endpoint (t : Table) (p m i : Nat) :
    ((clear_flags t p m) i).mp_endpoint = (t i).mp_endpoint := by
  by_cases h : i = p
  · subst h; simp [clear_flags]
  · simp [clear_flags, Function.update_noteq h]

@[simp] theorem clear_flags_mp_sigstatus (t : Table) (p m i : Nat) :
    ((clear_flags t p m) i).mp_sigstatus = (t i).mp_sigstatus := by
  by_cases h : i = p
  · subst h; simp [clear_flags]
  · simp [clear_flags, Function.update_noteq h]

theorem clear_flags_other (t : Table) (p m i : Nat) (h : i ≠ p) :
    (clear_flags t p m) i = t i := by
  simp [clear_flags, Function.update_noteq h]

@[simp] theorem set_sigstatus_mp_pid (t : Table) (p : Nat) (v : Int) (i : Nat) :
    ((set_sigstatus t p v) i).mp_pid = (t i).mp_pid := by
  by_cases h : i = p
  · subst h; simp [set_sigstatus]
  · simp [set_sigstatus, Function.update_noteq h]

@[simp] theorem set_sigstatus_mp_parent (t : Table) (p : Nat) (v : Int) (i : Nat) :
    ((set_sigstatus t p v) i).mp_parent = (t i).mp_parent := by
  by_cases h : i = p
  · subst h; simp [set_sigstatus]
  · simp [set_sigstatus, Function.update_noteq h]

@[simp] theorem set_sigstatus_mp_endpoint (t : Table) (p : Nat) (v : Int) (i : Nat) :
    ((set_sigstatus t p v) i).mp_endpoint = (t i).mp_endpoint := by
  by_cases h : i = p
  · subst h; simp [set_sigstatus]
  · simp [set_sigstatus, Function.update_noteq h]

@[simp] theorem set_sigstatus_mp_flags (t : Table) (p : Nat) (v : Int) (i : Nat) :
    ((set_sigstatus t p v) i).mp_flags = (t i).mp_flags := by
  by_cases h : i = p
  · subst h; simp [set_sigstatus]
  · simp [set_sigstatus, Function.update_noteq h]

@[simp] theorem set_sigstatus_self (t : Table) (p : Nat) (v : Int) :
    ((set_sigstatus t p v) p).mp_sigstatus = v := by
  simp [set_sigstatus]

theorem set_sigstatus_other (t : Table) (p : Nat) (v : Int) (i : Nat) (h : i ≠ p) :
    (set_sigstatus t p v) i = t i := by
  simp [set_sigstatus, Function.update_noteq h]

@[simp] theorem set_reply_trace_mp_pid (t : Table) (p : Nat) (v : Int) (i : Nat) :
    ((set_reply_trace t p v) i).mp_pid = (t i).mp_pid := by
  by_cases h : i = p
  · subst h; simp [set_reply_trace]
  · simp [set_reply_trace, Function.update_noteq h]

@[simp] theorem set_reply_trace_mp_parent (t : Table) (p : Nat) (v : Int) (i : Nat) :
    ((set_reply_trace t p v) i).mp_parent = (t i).mp_parent := by
  by_cases h : i = p
  · subst h; simp [set_reply_trace]
  · simp [set_reply_trace, Function.update_noteq h]

@[simp] theorem set_reply_trace_mp_endpoint (t : Table) (p : Nat) (v : Int) (i : Nat) :
    ((set_reply_trace t p v) i).mp_endpoint = (t i).mp_endpoint := by
  by_cases h : i = p
  · subst h; simp [set_reply_trace]
  · simp [set_reply_trace, Function.update_noteq h]

@[simp] theorem set_reply_trace_mp_flags (t : Table) (p : Nat) (v : Int) (i : Nat) :
    ((set_reply_trace t p v) i).mp_flags = (t i).mp_flags := by
  by_cases h : i = p
  · subst h; simp [set_reply_trace]
  · simp [set_reply_trace, Function.update_noteq h]

@[simp] theorem set_reply_trace_mp_sigstatus (t : Table) (p : Nat) (v : Int) (i : Nat) :
    ((set_reply_trace t p v) i).mp_sigstatus = (t i).mp_sigstatus := by
  by_cases h : i = p
  · subst h; simp [set_reply_trace]
  · simp [set_reply_trace, Function.update_noteq h]

@[simp] theorem set_reply_trace_self (t : Table) (p : Nat) (v : Int) :
    ((set_reply_trace t p v) p).mp_reply.reply_trace = v := by
  simp [set_reply_trace]

theorem set_reply_trace_other (t : Table) (p : Nat) (v : Int) (i : Nat) (h : i ≠ p) :
    (set_reply_trace t p v) i = t i := by
  simp [set_reply_trace, Function.update_noteq h]

@[simp] theorem set_reply_res2_mp_pid (t : Table) (p : Nat) (v : Int) (i : Nat) :
    ((set_reply_res2 t p v) i).mp_pid = (t i).mp_pid := by
  by_cases h : i = p
  · subst h; simp [set_reply_res2]
  · simp [set_reply_res2, Function.update_noteq h]

@[simp] theorem set_reply_res2_mp_parent (t : Table) (p : Nat) (v : Int) (i : Nat) :
    ((set_reply_res2 t p v) i).mp_parent = (t i).mp_parent := by
  by_cases h : i = p
  · subst h; simp [set_reply_res2]
  · simp [set_reply_res2, Function.update_noteq h]

@[simp] theorem set_reply_res2_mp_flags (t : Table) (p : Nat) (v : Int) (i : Nat) :
    ((set_reply_res2 t p v) i).mp_flags = (t i).mp_flags := by
  by_cases h : i = p
  · subst h; simp [set_reply_res2]
  · simp [set_reply_res2, Function.update_noteq h]

@[simp] theorem set_reply_res2_mp_sigstatus (t : Table) (p : Nat) (v : Int) (i : Nat) :
    ((set_reply_res2 t p v) i).mp_sigstatus = (t i).mp_sigstatus := by
  by_cases h : i = p
  · subst h; simp [set_reply_res2]
  · simp [set_reply_res2, Function.update_noteq h]

@[simp] theorem set_reply_res2_self (t : Table) (p : Nat) (v : Int) :
    ((set_reply_res2 t p v) p).mp_reply.reply_res2 = v := by
  simp [set_reply_res2]

/-! ## More on the lookup -/

/-- Two predicates that agree below `n` find the same first index below `n`. -/
theorem find_range_congr (p q : Nat → Bool) (n : Nat) (h : ∀ i, i < n → p i = q i) :
    (List.range n).find? p = (List.range n).find? q := by
  induction n with
  | zero => rfl
  | succ n ih =>
    rw [List.range_succ, List.find?_append, List.find?_append,
      ih (fun i hi => h i (Nat.lt_succ_of_lt hi))]
    simp [List.find?, h n (Nat.lt_succ_self n)]

/-- The lookup reads only the pid and the `IN_USE` and `ZOMBIE` bits of the
scanned slots. -/
theorem find_proc_congr (NR_PROCS : Nat) (t1 t2 : Table) (lpid : Int)
    (h : ∀ i, i < NR_PROCS →
      (t1 i).mp_pid = (t2 i).mp_pid ∧
      (t1 i).mp_flags &&& (IN_USE ||| ZOMBIE) = (t2 i).mp_flags &&& (IN_USE ||| ZOMBIE)) :
    find_proc NR_PROCS t1 lpid = find_proc NR_PROCS t2 lpid := by
  unfold find_proc
  apply find_range_congr
  intro i hi
  rw [(h i hi).1, (h i hi).2]

/-- What the lookup returns: the lowest scanned slot that passes its test. -/
theorem find_proc_eq_some_iff (NR_PROCS : Nat) (mproc : Table) (lpid : Int) (c : Nat) :
    find_proc NR_PROCS mproc lpid = some c ↔
      c < NR_PROCS ∧
      ((mproc c).mp_flags &&& (IN_USE ||| ZOMBIE) = IN_USE ∧ (mproc c).mp_pid = lpid) ∧
      ∀ j, j < c →
        ¬ ((mproc j).mp_flags &&& (IN_USE ||| ZOMBIE) = IN_USE ∧ (mproc j).mp_pid = lpid) := by
  unfold find_proc
  rw [List.find?_range_eq_some]
  simp only [List.mem_range, decide_eq_true_eq, Bool.not_eq_true', decide_eq_false_iff_not]
  tauto

theorem exit_ne_ok : T_EXIT ≠ T_OK := by decide

theorem exit_ne_readb : T_EXIT ≠ T_READB_INS := by decide

theorem exit_ne_writeb : T_EXIT ≠ T_WRITEB_INS := by decide

theorem exit_ne_stop : T_EXIT ≠ T_STOP := by decide

/-! ## Stop, then resume -/

/-- A successful `T_STOP` on a child of the caller, as one outcome. -/
theorem do_trace_stop_body (K : Collaborators) (NR_PROCS : Nat) (mproc : Table) (who_p : Nat)
    (m_in : Message) (child : Nat)
    (hreq : m_in.request = T_STOP)
    (hfind : find_proc NR_PROCS mproc m_in.pid = some child)
    (hparent : (mproc child).mp_parent = who_p)
    (hrelay : (K.sys_trace T_STOP (mproc child).mp_endpoint 0 none).1 = OK) :
    do_trace K NR_PROCS mproc who_p m_in =
      ⟨OK, set_reply_trace (set_sigstatus (set_flags mproc child STOPPED) child 0) who_p 0,
       [⟨Call.find_proc m_in.pid, mproc⟩,
        ⟨Call.sys_trace T_STOP (mproc child).mp_endpoint 0 none, mproc⟩]⟩ := by
  simp [do_trace, hreq, hfind, hparent, hrelay, stop_ne_ok, stop_ne_readb, stop_ne_writeb]

/-- Setting `STOPPED` does not change what the lookup finds. -/
theorem find_proc_after_stop (NR_PROCS : Nat) (mproc : Table) (lpid : Int) (child who_p : Nat)
    (v w : Int) :
    find_proc NR_PROCS
      (set_reply_trace (set_sigstatus (set_flags mproc child STOPPED) child v) who_p w) lpid =
      find_proc NR_PROCS mproc lpid := by
  apply find_proc_congr
  intro i _
  refine ⟨by simp, ?_⟩
  simp only [set_reply_trace_mp_flags, set_sigstatus_mp_flags]
  by_cases h : i = child
  · subst h
    rw [set_flags_self]
    exact or_and_of_disjoint _ _ _ (by decide)
  · rw [set_flags_other _ _ _ _ h]

/-- C11: for a child of the caller that the lookup resolves, with the relay
succeeding on both calls: `T_STOP` returns `OK` and leaves the child `STOPPED`
with `mp_sigstatus` 0; in the resulting table the lookup still resolves the
pid to the child, whose parent is still the caller, which is the precondition
of every later command; a following `T_RESUME` with data 0 returns `OK`,
leaves `STOPPED` clear, and its log holds the lookup and one `sys_trace` call
with command `T_RESUME`, so no `sig_proc` call. -/
theorem do_trace_stop_then_resume (K1 K2 : Collaborators) (NR_PROCS : Nat) (mproc : Table)
    (who_p : Nat) (pid : Int) (child : Nat) (a1 d1 a2 : Int)
    (hfind : find_proc NR_PROCS mproc pid = some child)
    (hparent : (mproc child).mp_parent = who_p)
    (hrelay1 : (K1.sys_trace T_STOP (mproc child).mp_endpoint 0 none).1 = OK)
    (hrelay2 : (K2.sys_trace T_RESUME (mproc child).mp_endpoint a2 (some 0)).1 = OK) :
    (do_trace K1 NR_PROCS mproc who_p ⟨T_STOP, pid, a1, d1⟩).ret = OK ∧
    ((do_trace K1 NR_PROCS mproc who_p ⟨T_STOP, pid, a1, d1⟩).mproc child).mp_flags
      &&& STOPPED ≠ 0 ∧
    ((do_trace K1 NR_PROCS mproc who_p ⟨T_STOP, pid, a1, d1⟩).mproc child).mp_sigstatus = 0 ∧
    find_proc NR_PROCS (do_trace K1 NR_PROCS mproc who_p ⟨T_STOP, pid, a1, d1⟩).mproc pid =
      some child ∧
    ((do_trace K1 NR_PROCS mproc who_p ⟨T_STOP, pid, a1, d1⟩).mproc child).mp_parent
      = who_p ∧
    (do_trace K2 NR_PROCS (do_trace K1 NR_PROCS mproc who_p ⟨T_STOP, pid, a1, d1⟩).mproc who_p
      ⟨T_RESUME, pid, a2, 0⟩).ret = OK ∧
    ((do_trace K2 NR_PROCS (do_trace K1 NR_PROCS mproc who_p ⟨T_STOP, pid, a1, d1⟩).mproc who_p
      ⟨T_RESUME, pid, a2, 0⟩).mproc child).mp_flags &&& STOPPED = 0 ∧
    (do_trace K2 NR_PROCS (do_trace K1 NR_PROCS mproc who_p ⟨T_STOP, pid, a1, d1⟩).mproc who_p
      ⟨T_RESUME, pid, a2, 0⟩).calls =
      [⟨Call.find_proc pid, (do_trace K1 NR_PROCS mproc who_p ⟨T_STOP, pid, a1, d1⟩).mproc⟩,
       ⟨Call.sys_trace T_RESUME (mproc child).mp_endpoint a2 (some 0),
        clear_flags (do_trace K1 NR_PROCS mproc who_p ⟨T_STOP, pid, a1, d1⟩).mproc child
          STOPPED⟩] := by
  have hstop := do_trace_stop_body K1 NR_PROCS mproc who_p ⟨T_STOP, pid, a1, d1⟩ child rfl
    hfind hparent hrelay1
  rw [hstop]
  have hflags : ((set_reply_trace (set_sigstatus (set_flags mproc child STOPPED) child 0)
      who_p 0) child).mp_flags &&& STOPPED ≠ 0 := by
    simp only [set_reply_trace_mp_flags, set_sigstatus_mp_flags, set_flags_self]
    rw [show STOPPED = 2 ^ 7 from rfl, or_two_pow_and_self]
    decide
  have hsig0 : ((set_reply_trace (set_sigstatus (set_flags mproc child STOPPED) child 0)
      who_p 0) child).mp_sigstatus = 0 := by simp
  have hfind1 : find_proc NR_PROCS
      (set_reply_trace (set_sigstatus (set_flags mproc child STOPPED) child 0) who_p 0) pid =
      some child := by rw [find_proc_after_stop]; exact hfind
  have hparent1 : ((set_reply_trace (set_sigstatus (set_flags mproc child STOPPED) child 0)
      who_p 0) child).mp_parent = who_p := by simpa using hparent
  have hresume := do_trace_resume_plain_body K2 NR_PROCS
    (set_reply_trace (set_sigstatus (set_flags mproc child STOPPED) child 0) who_p 0) who_p
    ⟨T_RESUME, pid, a2, 0⟩ child (Or.inl rfl) hfind1 hparent1 hflags
    (by rw [hsig0]; decide) rfl
  have hrel : (K2.sys_trace (Message.mk T_RESUME pid a2 0).request
      ((clear_flags (set_reply_trace (set_sigstatus (set_flags mproc child STOPPED) child 0)
        who_p 0) child STOPPED) child).mp_endpoint (Message.mk T_RESUME pid a2 0).taddr
      (some (Message.mk T_RESUME pid a2 0).data)).1 = OK := by
    simpa using hrelay2
  refine ⟨rfl, hflags, hsig0, hfind1, hparent1, ?_, ?_, ?_⟩
  · show (do_trace K2 NR_PROCS _ who_p ⟨T_RESUME, pid, a2, 0⟩).ret = OK
    rw [hresume]
    exact (relay_ok K2 _ who_p _ child _ hrel).1
  · show ((do_trace K2 NR_PROCS _ who_p ⟨T_RESUME, pid, a2, 0⟩).mproc child).mp_flags
      &&& STOPPED = 0
    rw [hresume, relay_mp_flags, clear_flags_self]
    exact and_bitnot_clear _ 7 (by decide)
  · show (do_trace K2 NR_PROCS _ who_p ⟨T_RESUME, pid, a2, 0⟩).calls = _
    rw [hresume, relay_calls]
    simp

theorem do_trace_stop_then_resume_witness :
    find_proc 4 (demo_table 7 (IN_USE ||| TRACED) 0) 10 = some 2 ∧
    ((demo_table 7 (IN_USE ||| TRACED) 0) 2).mp_flags &&& STOPPED = 0 ∧
    (do_trace (demo_relay OK) 4
      (do_trace (demo_relay OK) 4 (demo_table 7 (IN_USE ||| TRACED) 0) 1
        ⟨T_STOP, 10, 0, 0⟩).mproc 1 ⟨T_RESUME, 10, 0, 0⟩).ret = OK :=
  ⟨by decide, by decide,
   (do_trace_stop_then_resume (demo_relay OK) (demo_relay OK) 4
      (demo_table 7 (IN_USE ||| TRACED) 0) 1 10 2 0 0 0 (by decide) (by decide) (by decide)
      (by decide)).2.2.2.2.2.1⟩

/-! ## `T_EXIT` -/

/-- C12: `T_EXIT` on a stopped child of the caller with no pending
`mp_sigstatus`, for every data: after the lookup `exit_proc` is called exactly
once, with the child, the data cast to `int` and `PM_EXIT_TR`; no `sys_trace`
call is made; the resulting table is the one `exit_proc` left, so `do_trace`
itself writes no `reply_trace`; the status is `SUSPEND`, which is neither `OK`
nor one of the error codes. -/
theorem do_trace_exit (K : Collaborators) (NR_PROCS : Nat) (mproc : Table) (who_p : Nat)
    (m_in : Message) (child : Nat)
    (hreq : m_in.request = T_EXIT)
    (hfind : find_proc NR_PROCS mproc m_in.pid = some child)
    (hparent : (mproc child).mp_parent = who_p)
    (hstopped : (mproc child).mp_flags &&& STOPPED ≠ 0)
    (hsig : ¬ (mproc child).mp_sigstatus > 0) :
    (do_trace K NR_PROCS mproc who_p m_in).ret = SUSPEND ∧
    (do_trace K NR_PROCS mproc who_p m_in).calls =
      [⟨Call.find_proc m_in.pid, mproc⟩,
       ⟨Call.exit_proc child (int_cast m_in.data) PM_EXIT_TR, mproc⟩] ∧
    (do_trace K NR_PROCS mproc who_p m_in).mproc =
      K.exit_proc mproc child (int_cast m_in.data) PM_EXIT_TR ∧
    SUSPEND ≠ OK ∧ SUSPEND ≠ EPERM ∧ SUSPEND ≠ ESRCH ∧ SUSPEND ≠ EIO := by
  have hbody : do_trace K NR_PROCS mproc who_p m_in =
      ⟨SUSPEND, K.exit_proc mproc child (int_cast m_in.data) PM_EXIT_TR,
       [⟨Call.find_proc m_in.pid, mproc⟩,
        ⟨Call.exit_proc child (int_cast m_in.data) PM_EXIT_TR, mproc⟩]⟩ := by
    simp [do_trace, hreq, hfind, hparent, hstopped, hsig, exit_ne_ok, exit_ne_readb,
      exit_ne_writeb, exit_ne_stop]
  rw [hbody]
  exact ⟨rfl, rfl, rfl, by decide, by decide, by decide, by decide⟩

theorem do_trace_exit_witness :
    find_proc 4 (demo_table 7 (IN_USE ||| TRACED ||| STOPPED) 0) 10 = some 2 ∧
    int_cast 4294967299 = 3 ∧
    (do_trace (demo_relay OK) 4 (demo_table 7 (IN_USE ||| TRACED ||| STOPPED) 0) 1
        ⟨T_EXIT, 10, 0, 4294967299⟩).calls =
      [⟨Call.find_proc 10, demo_table 7 (IN_USE ||| TRACED ||| STOPPED) 0⟩,
       ⟨Call.exit_proc 2 3 PM_EXIT_TR, demo_table 7 (IN_USE ||| TRACED ||| STOPPED) 0⟩] :=
  ⟨by decide, by decide,
   (do_trace_exit (demo_relay OK) 4 (demo_table 7 (IN_USE ||| TRACED ||| STOPPED) 0) 1
      ⟨T_EXIT, 10, 0, 4294967299⟩ 2 rfl (by decide) (by decide) (by decide) (by decide)).2.1⟩

/-! ## `T_OK` -/

/-- C13: for every table, caller, pid, address and data, `T_OK` returns `OK`
with an empty log (no lookup, no `sys_trace`); the resulting table is the
input table with `TRACED` or-ed into the caller's flags and the caller's
`reply_trace` 0, every other entry and every other field of the caller being
as before; a second `T_OK`, with any pid, address and data, leaves the table
of the first. -/
theorem do_trace_ok (K K2 : Collaborators) (NR_PROCS : Nat) (mproc : Table) (who_p : Nat)
    (pid taddr data pid2 taddr2 data2 : Int) :
    (do_trace K NR_PROCS mproc who_p ⟨T_OK, pid, taddr, data⟩).ret = OK ∧
    (do_trace K NR_PROCS mproc who_p ⟨T_OK, pid, taddr, data⟩).calls = [] ∧
    (do_trace K NR_PROCS mproc who_p ⟨T_OK, pid, taddr, data⟩).mproc =
      Function.update mproc who_p
        { mproc who_p with
            mp_flags := (mproc who_p).mp_flags ||| TRACED,
            mp_reply := { (mproc who_p).mp_reply with reply_trace := 0 } } ∧
    ((do_trace K NR_PROCS mproc who_p ⟨T_OK, pid, taddr, data⟩).mproc who_p).mp_flags
      &&& TRACED ≠ 0 ∧
    ((do_trace K NR_PROCS mproc who_p ⟨T_OK, pid, taddr, data⟩).mproc
      who_p).mp_reply.reply_trace = 0 ∧
    (∀ i, i ≠ who_p →
      (do_trace K NR_PROCS mproc who_p ⟨T_OK, pid, taddr, data⟩).mproc i = mproc i) ∧
    (do_trace K2 NR_PROCS (do_trace K NR_PROCS mproc who_p ⟨T_OK, pid, taddr, data⟩).mproc
      who_p ⟨T_OK, pid2, taddr2, data2⟩).mproc =
      (do_trace K NR_PROCS mproc who_p ⟨T_OK, pid, taddr, data⟩).mproc := by
  have hbody : ∀ (K' : Collaborators) (t : Table) (p a d : Int),
      do_trace K' NR_PROCS t who_p ⟨T_OK, p, a, d⟩ =
        ⟨OK, Function.update t who_p
          { t who_p with
              mp_flags := (t who_p).mp_flags ||| TRACED,
              mp_reply := { (t who_p).mp_reply with reply_trace := 0 } }, []⟩ := by
    intro K' t p a d
    simp [do_trace, set_flags, set_reply_trace]
  rw [hbody K mproc, hbody K2]
  refine ⟨rfl, rfl, rfl, ?_, ?_, ?_, ?_⟩
  · simp only [Function.update_same]
    rw [show TRACED = 2 ^ 6 from rfl, or_two_pow_and_self]
    decide
  · simp
  · intro i hi
    simp [Function.update_noteq hi]
  · simp [Nat.or_assoc]

/-! ## The commands the system task handles alone -/

/-- C19: a request whose command is none of `T_OK`, `T_READB_INS`,
`T_WRITEB_INS`, `T_STOP`, `T_EXIT`, `T_RESUME`, `T_STEP`, on a stopped child
of the caller with no pending `mp_sigstatus`: after the lookup exactly one
`sys_trace` call is made, with the request's command, the child's endpoint,
the request's address and data, and no `sig_proc` or `exit_proc` call; the
flags and `mp_sigstatus` of every entry are unchanged; when the relay succeeds
`do_trace` returns `OK` and the only change is that the caller's `reply_trace`
is the relay's returned data; when it fails `do_trace` returns the relay's
error and the table is unchanged. -/
theorem do_trace_generic (K : Collaborators) (NR_PROCS : Nat) (mproc : Table) (who_p : Nat)
    (m_in : Message) (child : Nat)
    (hok : m_in.request ≠ T_OK) (hrd : m_in.request ≠ T_READB_INS)
    (hwr : m_in.request ≠ T_WRITEB_INS) (hstop : m_in.request ≠ T_STOP)
    (hexit : m_in.request ≠ T_EXIT) (hres : m_in.request ≠ T_RESUME)
    (hstep : m_in.request ≠ T_STEP)
    (hfind : find_proc NR_PROCS mproc m_in.pid = some child)
    (hparent : (mproc child).mp_parent = who_p)
    (hstopped : (mproc child).mp_flags &&& STOPPED ≠ 0)
    (hsig : ¬ (mproc child).mp_sigstatus > 0) :
    (do_trace K NR_PROCS mproc who_p m_in).calls =
      [⟨Call.find_proc m_in.pid, mproc⟩,
       ⟨Call.sys_trace m_in.request (mproc child).mp_endpoint m_in.taddr (some m_in.data),
        mproc⟩] ∧
    (∀ i, ((do_trace K NR_PROCS mproc who_p m_in).mproc i).mp_flags = (mproc i).mp_flags ∧
      ((do_trace K NR_PROCS mproc who_p m_in).mproc i).mp_sigstatus =
        (mproc i).mp_sigstatus) ∧
    ((K.sys_trace m_in.request (mproc child).mp_endpoint m_in.taddr (some m_in.data)).1 = OK →
      (do_trace K NR_PROCS mproc who_p m_in).ret = OK ∧
      ((do_trace K NR_PROCS mproc who_p m_in).mproc who_p).mp_reply.reply_trace =
        (K.sys_trace m_in.request (mproc child).mp_endpoint m_in.taddr (some m_in.data)).2 ∧
      (do_trace K NR_PROCS mproc who_p m_in).mproc =
        set_reply_trace mproc who_p
          (K.sys_trace m_in.request (mproc child).mp_endpoint m_in.taddr (some m_in.data)).2) ∧
    ((K.sys_trace m_in.request (mproc child).mp_endpoint m_in.taddr (some m_in.data)).1 ≠ OK →
      (do_trace K NR_PROCS mproc who_p m_in).ret =
        (K.sys_trace m_in.request (mproc child).mp_endpoint m_in.taddr (some m_in.data)).1 ∧
      (do_trace K NR_PROCS mproc who_p m_in).mproc = mproc) := by
  have hbody : do_trace K NR_PROCS mproc who_p m_in =
      relay K mproc who_p m_in child [⟨Call.find_proc m_in.pid, mproc⟩] := by
    simp [do_trace, hok, hrd, hwr, hstop, hexit, hres, hstep, hfind, hparent, hstopped, hsig]
  rw [hbody]
  refine ⟨?_, ?_, ?_, ?_⟩
  · rw [relay_calls]; rfl
  · intro i
    refine ⟨relay_mp_flags K mproc who_p m_in child _ i, ?_⟩
    by_cases hr : (K.sys_trace m_in.request (mproc child).mp_endpoint m_in.taddr
        (some m_in.data)).1 = OK
    · rw [(relay_ok K mproc who_p m_in child _ hr).2]; simp
    · rw [(relay_fail K mproc who_p m_in child _ hr).2]
  · intro hr
    have h := relay_ok K mproc who_p m_in child [⟨Call.find_proc m_in.pid, mproc⟩] hr
    refine ⟨h.1, ?_, h.2⟩
    rw [h.2]; simp
  · intro hr
    exact relay_fail K mproc who_p m_in child [⟨Call.find_proc m_in.pid, mproc⟩] hr

theorem do_trace_generic_witness :
    find_proc 4 (demo_table 7 (IN_USE ||| TRACED ||| STOPPED) 0) 10 = some 2 ∧
    (do_trace (demo_relay OK) 4 (demo_table 7 (IN_USE ||| TRACED ||| STOPPED) 0) 1
        ⟨T_GETINS, 10, 64, 0⟩).calls =
      [⟨Call.find_proc 10, demo_table 7 (IN_USE ||| TRACED ||| STOPPED) 0⟩,
       ⟨Call.sys_trace T_GETINS 110 64 (some 0),
        demo_table 7 (IN_USE ||| TRACED ||| STOPPED) 0⟩] :=
  ⟨by decide,
   (do_trace_generic (demo_relay OK) 4 (demo_table 7 (IN_USE ||| TRACED ||| STOPPED) 0) 1
      ⟨T_GETINS, 10, 64, 0⟩ 2 (by decide) (by decide) (by decide) (by decide) (by decide)
      (by decide) (by decide) (by decide) (by decide) (by decide) (by decide)).1⟩

/-! ## The lookup, in full -/

/-- C16: `find_proc` returns an entry if and only if some scanned entry has
`IN_USE` set, `ZOMBIE` clear and the pid; the entry returned is scanned, has
`IN_USE` set, `ZOMBIE` clear and the pid, and no entry below it has all three;
an entry that is not in use or is a zombie is never returned. The function
only reads the table: it returns a slot and no table. -/
theorem find_proc_spec (NR_PROCS : Nat) (mproc : Table) (lpid : Int) :
    ((∃ c, find_proc NR_PROCS mproc lpid = some c) ↔
      ∃ i, i < NR_PROCS ∧ (mproc i).mp_flags &&& IN_USE ≠ 0 ∧
        (mproc i).mp_flags &&& ZOMBIE = 0 ∧ (mproc i).mp_pid = lpid) ∧
    (∀ c, find_proc NR_PROCS mproc lpid = some c →
      c < NR_PROCS ∧ (mproc c).mp_flags &&& IN_USE ≠ 0 ∧ (mproc c).mp_flags &&& ZOMBIE = 0 ∧
      (mproc c).mp_pid = lpid ∧
      ∀ j, j < c →
        ¬ ((mproc j).mp_flags &&& IN_USE ≠ 0 ∧ (mproc j).mp_flags &&& ZOMBIE = 0 ∧
            (mproc j).mp_pid = lpid)) ∧
    (∀ c, (mproc c).mp_flags &&& IN_USE = 0 ∨ (mproc c).mp_flags &&& ZOMBIE ≠ 0 →
      find_proc NR_PROCS mproc lpid ≠ some c) := by
  have hsome : ∀ c, find_proc NR_PROCS mproc lpid = some c →
      c < NR_PROCS ∧ (mproc c).mp_flags &&& IN_USE ≠ 0 ∧ (mproc c).mp_flags &&& ZOMBIE = 0 ∧
      (mproc c).mp_pid = lpid ∧
      ∀ j, j < c →
        ¬ ((mproc j).mp_flags &&& IN_USE ≠ 0 ∧ (mproc j).mp_flags &&& ZOMBIE = 0 ∧
            (mproc j).mp_pid = lpid) := by
    intro c hc
    obtain ⟨hlt, ⟨hfl, hpid⟩, hmin⟩ := (find_proc_eq_some_iff NR_PROCS mproc lpid c).1 hc
    refine ⟨hlt, ((flags_live_iff _).1 hfl).1, ((flags_live_iff _).1 hfl).2, hpid, ?_⟩
    intro j hj hlive
    exact hmin j hj ⟨(flags_live_iff _).2 ⟨hlive.1, hlive.2.1⟩, hlive.2.2⟩
  refine ⟨⟨?_, ?_⟩, hsome, ?_⟩
  · rintro ⟨c, hc⟩
    obtain ⟨hlt, h1, h2, h3, _⟩ := hsome c hc
    exact ⟨c, hlt, h1, h2, h3⟩
  · rintro ⟨i, hi, h1, h2, h3⟩
    cases hf : find_proc NR_PROCS mproc lpid with
    | some c => exact ⟨c, rfl⟩
    | none =>
      exact absurd ⟨h1, h2, h3⟩ ((find_proc_eq_none_iff NR_PROCS mproc lpid).1 hf i hi)
  · intro c hc hfind
    obtain ⟨_, h1, h2, _⟩ := hsome c hfind
    rcases hc with hc | hc
    · exact h1 hc
    · exact hc h2

/-! ## The wait status word -/

set_option maxRecDepth 100000 in
/-- The bytes of the status word, for every signal number below 256. -/
theorem stop_status_bytes :
    ∀ n : Nat, n < 256 →
      Int.land (stop_status (n : Int)) 0xFF = 0o177 ∧
      Int.land ((stop_status (n : Int)) >>> (8 : Nat)) 0xFF = (n : Int) := by
  decide

/-- C15: for every signal number from 0 to 255 the status word
`0177 | (signo << 8)` has low byte `0177` (`0x7F`) and next byte `signo`; so
two signal numbers in that range with the same word are equal. -/
theorem stop_status_word (signo signo2 : Int)
    (hlo : 0 ≤ signo) (hhi : signo ≤ 255) (hlo2 : 0 ≤ signo2) (hhi2 : signo2 ≤ 255) :
    Int.land (stop_status signo) 0xFF = 0x7F ∧
    Int.land ((stop_status signo) >>> (8 : Nat)) 0xFF = signo ∧
    (stop_status signo = stop_status signo2 → signo = signo2) := by
  have hbytes : ∀ x : Int, 0 ≤ x → x ≤ 255 →
      Int.land (stop_status x) 0xFF = 0x7F ∧
      Int.land ((stop_status x) >>> (8 : Nat)) 0xFF = x := by
    intro x h0 h1
    obtain ⟨n, rfl⟩ := Int.eq_ofNat_of_zero_le h0
    exact stop_status_bytes n (by omega)
  refine ⟨(hbytes signo hlo hhi).1, (hbytes signo hlo hhi).2, fun heq => ?_⟩
  rw [← (hbytes signo hlo hhi).2, ← (hbytes signo2 hlo2 hhi2).2, heq]

theorem stop_status_word_witness :
    Int.land (stop_status 5) 0xFF = 0x7F ∧
    Int.land ((stop_status 5) >>> (8 : Nat)) 0xFF = 5 ∧
    (stop_status 5 = stop_status 6 → (5 : Int) = 6) :=
  stop_status_word 5 6 (by decide) (by decide) (by decide) (by decide)

/-! ## The stop notifier -/

/-- Setting `STOPPED` on one entry leaves every `WAITING` bit as it was. -/
theorem set_stopped_waiting (t : Table) (p i : Nat) :
    ((set_flags t p STOPPED) i).mp_flags &&& WAITING = (t i).mp_flags &&& WAITING := by
  by_cases h : i = p
  · subst h
    rw [set_flags_self]
    exact or_and_of_disjoint _ _ _ (by decide)
  · rw [set_flags_other _ _ _ _ h]

/-- Clearing `WAITING` on one entry leaves every `STOPPED` bit as it was. -/
theorem clear_waiting_stopped (t : Table) (p i : Nat) :
    ((clear_flags t p WAITING) i).mp_flags &&& STOPPED = (t i).mp_flags &&& STOPPED := by
  by_cases h : i = p
  · subst h
    rw [clear_flags_self]
    exact and_and_of_absorb _ _ _ (by decide)
  · rw [clear_flags_other _ _ _ _ h]

/-- Clearing `WAITING` on one entry leaves every `TRACED` bit as it was. -/
theorem clear_waiting_traced (t : Table) (p i : Nat) :
    ((clear_flags t p WAITING) i).mp_flags &&& TRACED = (t i).mp_flags &&& TRACED := by
  by_cases h : i = p
  · subst h
    rw [clear_flags_self]
    exact and_and_of_absorb _ _ _ (by decide)
  · rw [clear_flags_other _ _ _ _ h]

/-- After `p->mp_flags |= STOPPED` the entry `p` is stopped. -/
theorem set_stopped_self (t : Table) (p : Nat) :
    ((set_flags t p STOPPED) p).mp_flags &&& STOPPED ≠ 0 := by
  rw [set_flags_self, show STOPPED = 2 ^ 7 from rfl, or_two_pow_and_self]
  decide

/-- The notifier with a waiting parent, as one outcome. -/
theorem stop_proc_waiting_body (K : Collaborators) (mproc : Table) (rmp : Nat) (signo : Int)
    (hrelay : (K.sys_trace T_STOP (mproc rmp).mp_endpoint 0 none).1 = OK)
    (hwait : (mproc (mproc rmp).mp_parent).mp_flags &&& WAITING ≠ 0) :
    stop_proc K mproc rmp signo =
      ⟨false,
       K.setreply
         (set_reply_res2
           (clear_flags (set_flags mproc rmp STOPPED) (mproc rmp).mp_parent WAITING)
           (mproc rmp).mp_parent (stop_status signo))
         (mproc rmp).mp_parent (mproc rmp).mp_pid,
       [⟨Call.sys_trace T_STOP (mproc rmp).mp_endpoint 0 none, mproc⟩,
        ⟨Call.setreply (mproc rmp).mp_parent (mproc rmp).mp_pid,
         set_reply_res2
           (clear_flags (set_flags mproc rmp STOPPED) (mproc rmp).mp_parent WAITING)
           (mproc rmp).mp_parent (stop_status signo)⟩]⟩ := by
  have hw : ((set_flags mproc rmp STOPPED) (mproc rmp).mp_parent).mp_flags &&& WAITING ≠ 0 := by
    rw [set_stopped_waiting]; exact hwait
  simp [stop_proc, hrelay, hw]

/-- The notifier with a parent that is not waiting, as one outcome. -/
theorem stop_proc_pending_body (K : Collaborators) (mproc : Table) (rmp : Nat) (signo : Int)
    (hrelay : (K.sys_trace T_STOP (mproc rmp).mp_endpoint 0 none).1 = OK)
    (hwait : (mproc (mproc rmp).mp_parent).mp_flags &&& WAITING = 0) :
    stop_proc K mproc rmp signo =
      ⟨false, set_sigstatus (set_flags mproc rmp STOPPED) rmp signo,
       [⟨Call.sys_trace T_STOP (mproc rmp).mp_endpoint 0 none, mproc⟩]⟩ := by
  have hw : ((set_flags mproc rmp STOPPED) (mproc rmp).mp_parent).mp_flags &&& WAITING = 0 := by
    rw [set_stopped_waiting]; exact hwait
  simp [stop_proc, hrelay, hw]

/-- C14, at the input that refutes it: the entry in slot 1 is its own parent
and is not waiting; `stop_proc` on it with signal 5 sets `STOPPED` and
`mp_sigstatus` on it, so fields of the parent do change. -/
theorem stop_proc_counterexample :
    ((demo_relay OK).sys_trace T_STOP (self_parent_table 1).mp_endpoint 0 none).1 = OK ∧
    (self_parent_table 1).mp_parent = 1 ∧
    (self_parent_table (self_parent_table 1).mp_parent).mp_flags &&& WAITING = 0 ∧
    (self_parent_table (self_parent_table 1).mp_parent).mp_sigstatus = 0 ∧
    ((stop_proc (demo_relay OK) self_parent_table 1 5).mproc
      (self_parent_table 1).mp_parent).mp_sigstatus = 5 ∧
    (stop_proc (demo_relay OK) self_parent_table 1 5).mproc (self_parent_table 1).mp_parent ≠
      self_parent_table (self_parent_table 1).mp_parent := by
  refine ⟨by decide, by decide, by decide, by decide, by decide, by decide⟩

/-- C14, amended: when the relay's `T_STOP` call succeeds, `stop_proc` does
not panic and sets `STOPPED` on `rmp`. If the parent entry has `WAITING` set,
`setreply(parent, rmp.mp_pid)` is called exactly once, on a table `t3` in
which the parent's `WAITING` is clear, the parent's `reply_res2` is the stop
status word and `rmp.mp_sigstatus` is as before, and the final table is what
`setreply` makes of `t3`. If the parent is not `WAITING`, `setreply` is not
called, `rmp.mp_sigstatus` is `signo`, and no field of the parent changes
when the parent is another entry than `rmp`. -/
theorem stop_proc_ok (K : Collaborators) (mproc : Table) (rmp : Nat) (signo : Int)
    (hrelay : (K.sys_trace T_STOP (mproc rmp).mp_endpoint 0 none).1 = OK) :
    ((mproc (mproc rmp).mp_parent).mp_flags &&& WAITING ≠ 0 →
      ∃ t3 : Table,
        t3 = set_reply_res2
          (clear_flags (set_flags mproc rmp STOPPED) (mproc rmp).mp_parent WAITING)
          (mproc rmp).mp_parent (stop_status signo) ∧
        (stop_proc K mproc rmp signo).panicked = false ∧
        (stop_proc K mproc rmp signo).calls =
          [⟨Call.sys_trace T_STOP (mproc rmp).mp_endpoint 0 none, mproc⟩,
           ⟨Call.setreply (mproc rmp).mp_parent (mproc rmp).mp_pid, t3⟩] ∧
        (stop_proc K mproc rmp signo).mproc =
          K.setreply t3 (mproc rmp).mp_parent (mproc rmp).mp_pid ∧
        (t3 rmp).mp_flags &&& STOPPED ≠ 0 ∧
        (t3 (mproc rmp).mp_parent).mp_flags &&& WAITING = 0 ∧
        (t3 (mproc rmp).mp_parent).mp_reply.reply_res2 = stop_status signo ∧
        (t3 rmp).mp_sigstatus = (mproc rmp).mp_sigstatus) ∧
    ((mproc (mproc rmp).mp_parent).mp_flags &&& WAITING = 0 →
      (stop_proc K mproc rmp signo).panicked = false ∧
      (stop_proc K mproc rmp signo).calls =
        [⟨Call.sys_trace T_STOP (mproc rmp).mp_endpoint 0 none, mproc⟩] ∧
      (stop_proc K mproc rmp signo).mproc =
        set_sigstatus (set_flags mproc rmp STOPPED) rmp signo ∧
      ((stop_proc K mproc rmp signo).mproc rmp).mp_flags &&& STOPPED ≠ 0 ∧
      ((stop_proc K mproc rmp signo).mproc rmp).mp_sigstatus = signo ∧
      ((mproc rmp).mp_parent ≠ rmp →
        (stop_proc K mproc rmp signo).mproc (mproc rmp).mp_parent =
          mproc (mproc rmp).mp_parent)) := by
  constructor
  · intro hwait
    rw [stop_proc_waiting_body K mproc rmp signo hrelay hwait]
    refine ⟨_, rfl, rfl, rfl, rfl, ?_, ?_, ?_, ?_⟩
    · rw [set_reply_res2_mp_flags, clear_waiting_stopped]
      exact set_stopped_self mproc rmp
    · rw [set_reply_res2_mp_flags, clear_flags_self]
      exact and_bitnot_clear _ 1 (by decide)
    · simp
    · simp
  · intro hwait
    rw [stop_proc_pending_body K mproc rmp signo hrelay hwait]
    refine ⟨rfl, rfl, rfl, ?_, ?_, ?_⟩
    · rw [set_sigstatus_mp_flags]
      exact set_stopped_self mproc rmp
    · simp
    · intro hne
      show (set_sigstatus (set_flags mproc rmp STOPPED) rmp signo) (mproc rmp).mp_parent = _
      rw [set_sigstatus_other _ _ _ _ hne, set_flags_other _ _ _ _ hne]

theorem stop_proc_ok_witness :
    ((demo_relay OK).sys_trace T_STOP
      ((demo_table 7 (IN_USE ||| TRACED) 0) 2).mp_endpoint 0 none).1 = OK ∧
    ((demo_table 7 (IN_USE ||| TRACED) 0)
      ((demo_table 7 (IN_USE ||| TRACED) 0) 2).mp_parent).mp_flags &&& WAITING = 0 ∧
    ((stop_proc (demo_relay OK) (demo_table 7 (IN_USE ||| TRACED) 0) 2 5).mproc
      2).mp_sigstatus = 5 ∧
    ((set_flags (demo_table 7 (IN_USE ||| TRACED) 0) 1 WAITING)
      ((set_flags (demo_table 7 (IN_USE ||| TRACED) 0) 1 WAITING) 2).mp_parent).mp_flags
        &&& WAITING ≠ 0 ∧
    ((stop_proc (demo_relay OK) (set_flags (demo_table 7 (IN_USE ||| TRACED) 0) 1 WAITING)
      2 5).mproc 1).mp_reply.reply_res2 = stop_status 5 := by
  refine ⟨by decide, by decide,
    ((stop_proc_ok (demo_relay OK) (demo_table 7 (IN_USE ||| TRACED) 0) 2 5 (by decide)).2
      (by decide)).2.2.2.2.1, by decide, ?_⟩
  obtain ⟨t3, _, _, _, hm, _, _, hres, _⟩ :=
    (stop_proc_ok (demo_relay OK) (set_flags (demo_table 7 (IN_USE ||| TRACED) 0) 1 WAITING)
      2 5 (by decide)).1 (by decide)
  rw [hm]
  exact hres

/-- C17: when the relay's `T_STOP` call returns an error, `stop_proc` ends in
`panic`, an outcome that is no status code, with the table as it was: the
log holds the relay call and the `panic`, no `setreply`, and no flag,
`mp_sigstatus` or reply slot is written. -/
theorem stop_proc_relay_fail (K : Collaborators) (mproc : Table) (rmp : Nat) (signo : Int)
    (hrelay : (K.sys_trace T_STOP (mproc rmp).mp_endpoint 0 none).1 ≠ OK) :
    (stop_proc K mproc rmp signo).panicked = true ∧
    (stop_proc K mproc rmp signo).mproc = mproc ∧
    (stop_proc K mproc rmp signo).calls =
      [⟨Call.sys_trace T_STOP (mproc rmp).mp_endpoint 0 none, mproc⟩,
       ⟨Call.panic "pm" "sys_trace failed"
          (K.sys_trace T_STOP (mproc rmp).mp_endpoint 0 none).1, mproc⟩] := by
  simp [stop_proc, hrelay]

theorem stop_proc_relay_fail_witness :
    ((demo_relay EPERM).sys_trace T_STOP
      ((demo_table 7 (IN_USE ||| TRACED) 0) 2).mp_endpoint 0 none).1 ≠ OK ∧
    (stop_proc (demo_relay EPERM) (demo_table 7 (IN_USE ||| TRACED) 0) 2 5).panicked = true ∧
    (stop_proc (demo_relay EPERM) (demo_table 7 (IN_USE ||| TRACED) 0) 2 5).mproc =
      demo_table 7 (IN_USE ||| TRACED) 0 :=
  ⟨by decide,
   (stop_proc_relay_fail (demo_relay EPERM) (demo_table 7 (IN_USE ||| TRACED) 0) 2 5
      (by decide)).1,
   (stop_proc_relay_fail (demo_relay EPERM) (demo_table 7 (IN_USE ||| TRACED) 0) 2 5
      (by decide)).2.1⟩

/-! ## Stopped entries are traced -/

/-- The predicate depends on the flags only. -/
theorem inv_of_flags_eq (NR_PROCS : Nat) (t t2 : Table)
    (h : ∀ i, (t2 i).mp_flags = (t i).mp_flags) (hinv : stopped_implies_traced NR_PROCS t) :
    stopped_implies_traced NR_PROCS t2 := by
  intro i hi hs
  rw [h i] at hs ⊢
  exact hinv i hi hs

/-- The relay tail keeps the predicate. -/
theorem inv_relay (K : Collaborators) (NR_PROCS : Nat) (t : Table) (who_p : Nat)
    (m_in : Message) (child : Nat) (calls : List Event)
    (hinv : stopped_implies_traced NR_PROCS t) :
    stopped_implies_traced NR_PROCS (relay K t who_p m_in child calls).mproc :=
  inv_of_flags_eq NR_PROCS t _ (fun i => relay_mp_flags K t who_p m_in child calls i) hinv

/-- Setting `TRACED` keeps the predicate. -/
theorem inv_set_traced (NR_PROCS : Nat) (t : Table) (p : Nat)
    (hinv : stopped_implies_traced NR_PROCS t) :
    stopped_implies_traced NR_PROCS (set_flags t p TRACED) := by
  intro i hi hs
  by_cases h : i = p
  · subst h
    rw [set_flags_self, show TRACED = 2 ^ 6 from rfl, or_two_pow_and_self]
    decide
  · rw [set_flags_other _ _ _ _ h] at hs ⊢
    exact hinv i hi hs

/-- Setting `STOPPED` on a traced entry keeps the predicate. -/
theorem inv_set_stopped (NR_PROCS : Nat) (t : Table) (p : Nat)
    (hinv : stopped_implies_traced NR_PROCS t) (htr : (t p).mp_flags &&& TRACED ≠ 0) :
    stopped_implies_traced NR_PROCS (set_flags t p STOPPED) := by
  intro i hi hs
  by_cases h : i = p
  · subst h
    rw [set_flags_self, or_and_of_disjoint _ _ _ (by decide)]
    exact htr
  · rw [set_flags_other _ _ _ _ h] at hs ⊢
    exact hinv i hi hs

/-- Clearing `STOPPED` on an entry gives the predicate when the other entries
have it. -/
theorem inv_clear_stopped (NR_PROCS : Nat) (t : Table) (p : Nat)
    (hothers : ∀ i, i < NR_PROCS → i ≠ p →
      (t i).mp_flags &&& STOPPED ≠ 0 → (t i).mp_flags &&& TRACED ≠ 0) :
    stopped_implies_traced NR_PROCS (clear_flags t p STOPPED) := by
  intro i hi hs
  by_cases h : i = p
  · subst h
    rw [clear_flags_self] at hs
    exact absurd (and_bitnot_clear _ 7 (by decide)) hs
  · rw [clear_flags_other _ _ _ _ h] at hs ⊢
    exact hothers i hi h hs

/-- Clearing `WAITING` keeps the predicate. -/
theorem inv_clear_waiting (NR_PROCS : Nat) (t : Table) (p : Nat)
    (hinv : stopped_implies_traced NR_PROCS t) :
    stopped_implies_traced NR_PROCS (clear_flags t p WAITING) := by
  intro i hi hs
  rw [clear_waiting_stopped] at hs
  rw [clear_waiting_traced]
  exact hinv i hi hs

/-- C18, at the input that refutes it: no entry of the table is stopped, so
the predicate holds; after a successful `T_STOP` on the caller's untraced
child (pid 10) the child is `STOPPED` and not `TRACED`. -/
theorem stopped_traced_counterexample :
    stopped_implies_traced 4 (demo_table 7 IN_USE 0) ∧
    (do_trace (demo_relay OK) 4 (demo_table 7 IN_USE 0) 1 ⟨T_STOP, 10, 0, 0⟩).ret = OK ∧
    ((do_trace (demo_relay OK) 4 (demo_table 7 IN_USE 0) 1 ⟨T_STOP, 10, 0, 0⟩).mproc
      2).mp_flags &&& STOPPED ≠ 0 ∧
    ((do_trace (demo_relay OK) 4 (demo_table 7 IN_USE 0) 1 ⟨T_STOP, 10, 0, 0⟩).mproc
      2).mp_flags &&& TRACED = 0 ∧
    ¬ stopped_implies_traced 4
      (do_trace (demo_relay OK) 4 (demo_table 7 IN_USE 0) 1 ⟨T_STOP, 10, 0, 0⟩).mproc := by
  refine ⟨?_, by decide, by decide, by decide, ?_⟩
  · unfold stopped_implies_traced
    decide
  · intro h
    exact h 2 (by decide) (by decide) (by decide)

/-- C18, amended: let the predicate "every scanned entry with `STOPPED` set
has `TRACED` set" hold, let `exit_proc` and `setreply` keep it, and let
`sig_proc` keep it on the entries other than its target. Then it holds after
every `do_trace` request, for every caller and relay outcome, except a
successful `T_STOP` on a child of the caller that is not `TRACED`; and it
holds after every `stop_proc` call made on a traced entry. -/
theorem stopped_traced_preserved (K : Collaborators) (NR_PROCS : Nat) (mproc : Table)
    (hinv : stopped_implies_traced NR_PROCS mproc)
    (hexit : ∀ t c e x, stopped_implies_traced NR_PROCS t →
      stopped_implies_traced NR_PROCS (K.exit_proc t c e x))
    (hsigp : ∀ t c s,
      (∀ i, i < NR_PROCS → i ≠ c →
        (t i).mp_flags &&& STOPPED ≠ 0 → (t i).mp_flags &&& TRACED ≠ 0) →
      ∀ i, i < NR_PROCS → i ≠ c →
        ((K.sig_proc t c s) i).mp_flags &&& STOPPED ≠ 0 →
        ((K.sig_proc t c s) i).mp_flags &&& TRACED ≠ 0)
    (hreply : ∀ t p r, stopped_implies_traced NR_PROCS t →
      stopped_implies_traced NR_PROCS (K.setreply t p r)) :
    (∀ who_p m_in,
      (m_in.request = T_STOP → ∀ c, find_proc NR_PROCS mproc m_in.pid = some c →
        (mproc c).mp_parent = who_p →
        (K.sys_trace T_STOP (mproc c).mp_endpoint 0 none).1 = OK →
        (mproc c).mp_flags &&& TRACED ≠ 0) →
      stopped_implies_traced NR_PROCS (do_trace K NR_PROCS mproc who_p m_in).mproc) ∧
    (∀ rmp signo, (mproc rmp).mp_flags &&& TRACED ≠ 0 →
      stopped_implies_traced NR_PROCS (stop_proc K mproc rmp signo).mproc) := by
  have hrt : ∀ (t : Table) (p : Nat) (v : Int), stopped_implies_traced NR_PROCS t →
      stopped_implies_traced NR_PROCS (set_reply_trace t p v) :=
    fun t p v h => inv_of_flags_eq NR_PROCS t _ (fun i => set_reply_trace_mp_flags t p v i) h
  have hss : ∀ (t : Table) (p : Nat) (v : Int), stopped_implies_traced NR_PROCS t →
      stopped_implies_traced NR_PROCS (set_sigstatus t p v) :=
    fun t p v h => inv_of_flags_eq NR_PROCS t _ (fun i => set_sigstatus_mp_flags t p v i) h
  have hr2 : ∀ (t : Table) (p : Nat) (v : Int), stopped_implies_traced NR_PROCS t →
      stopped_implies_traced NR_PROCS (set_reply_res2 t p v) :=
    fun t p v h => inv_of_flags_eq NR_PROCS t _ (fun i => set_reply_res2_mp_flags t p v i) h
  constructor
  · intro who_p m_in hstopx
    by_cases hok : m_in.request = T_OK
    · have hb : (do_trace K NR_PROCS mproc who_p m_in).mproc =
          set_reply_trace (set_flags mproc who_p TRACED) who_p 0 := by
        simp [do_trace, hok]
      rw [hb]
      exact hrt _ _ _ (inv_set_traced NR_PROCS mproc who_p hinv)
    by_cases hraw : m_in.request = T_READB_INS ∨ m_in.request = T_WRITEB_INS
    · by_cases huid : (mproc who_p).mp_effuid = SUPER_USER
      · cases hf : find_proc NR_PROCS mproc m_in.pid with
        | none =>
          have hb : (do_trace K NR_PROCS mproc who_p m_in).mproc = mproc := by
            rcases hraw with h | h <;>
              simp [do_trace, h, huid, hf, readb_ne_ok, writeb_ne_ok, writeb_ne_readb]
          rw [hb]; exact hinv
        | some c =>
          have hb : do_trace K NR_PROCS mproc who_p m_in =
              relay K mproc who_p m_in c [⟨Call.find_proc m_in.pid, mproc⟩] := by
            rcases hraw with h | h <;>
              simp [do_trace, h, huid, hf, readb_ne_ok, writeb_ne_ok, writeb_ne_readb]
          rw [hb]; exact inv_relay K NR_PROCS mproc who_p m_in c _ hinv
      · have hb : (do_trace K NR_PROCS mproc who_p m_in).mproc = mproc := by
          rcases hraw with h | h <;>
            simp [do_trace, h, huid, readb_ne_ok, writeb_ne_ok, writeb_ne_readb]
        rw [hb]; exact hinv
    have hrd : m_in.request ≠ T_READB_INS := fun h => hraw (Or.inl h)
    have hwr : m_in.request ≠ T_WRITEB_INS := fun h => hraw (Or.inr h)
    cases hf : find_proc NR_PROCS mproc m_in.pid with
    | none =>
      have hb : (do_trace K NR_PROCS mproc who_p m_in).mproc = mproc := by
        simp [do_trace, hok, hrd, hwr, hf]
      rw [hb]; exact hinv
    | some c =>
      by_cases hpar : (mproc c).mp_parent = who_p
      swap
      · have hb : (do_trace K NR_PROCS mproc who_p m_in).mproc = mproc := by
          simp [do_trace, hok, hrd, hwr, hf, hpar]
        rw [hb]; exact hinv
      by_cases hst : m_in.request = T_STOP
      · by_cases hrel : (K.sys_trace T_STOP (mproc c).mp_endpoint 0 none).1 = OK
        · rw [do_trace_stop_body K NR_PROCS mproc who_p m_in c hst hf hpar hrel]
          exact hrt _ _ _ (hss _ _ _
            (inv_set_stopped NR_PROCS mproc c hinv (hstopx hst c hf hpar hrel)))
        · have hb : (do_trace K NR_PROCS mproc who_p m_in).mproc = mproc := by
            simp [do_trace, hst, hf, hpar, hrel, stop_ne_ok, stop_ne_readb, stop_ne_writeb]
          rw [hb]; exact hinv
      by_cases hstate : (mproc c).mp_flags &&& STOPPED = 0 ∨ (mproc c).mp_sigstatus > 0
      · have hb : (do_trace K NR_PROCS mproc who_p m_in).mproc = mproc := by
          simp [do_trace, hok, hrd, hwr, hst, hf, hpar, hstate]
        rw [hb]; exact hinv
      have hstopped : (mproc c).mp_flags &&& STOPPED ≠ 0 := fun h => hstate (Or.inl h)
      have hsig : ¬ (mproc c).mp_sigstatus > 0 := fun h => hstate (Or.inr h)
      by_cases hex : m_in.request = T_EXIT
      · have hb : (do_trace K NR_PROCS mproc who_p m_in).mproc =
            K.exit_proc mproc c (int_cast m_in.data) PM_EXIT_TR := by
          simp [do_trace, hex, hf, hpar, hstopped, hsig, exit_ne_ok, exit_ne_readb,
            exit_ne_writeb, exit_ne_stop]
        rw [hb]; exact hexit _ _ _ _ hinv
      by_cases hres : m_in.request = T_RESUME ∨ m_in.request = T_STEP
      · by_cases hbad : m_in.data < 0 ∨ m_in.data > _NSIG
        · have hb : (do_trace K NR_PROCS mproc who_p m_in).mproc = mproc := by
            simp [do_trace, hok, hrd, hwr, hst, hex, hres, hf, hpar, hstopped, hsig, hbad]
          rw [hb]; exact hinv
        have hlo : 0 ≤ m_in.data := not_lt.1 (fun h => hbad (Or.inl h))
        have hhi : m_in.data ≤ _NSIG := not_lt.1 (fun h => hbad (Or.inr h))
        by_cases hpos : 0 < m_in.data
        · rw [do_trace_resume_signal_body K NR_PROCS mproc who_p m_in c hres hf hpar hstopped
            hsig hpos hhi]
          apply inv_relay
          apply inv_clear_stopped
          intro i hi hne
          rw [set_flags_other _ _ _ _ hne]
          apply hsigp _ _ _ _ i hi hne
          intro j hj hjne
          rw [clear_flags_other _ _ _ _ hjne]
          exact hinv j hj
        · have hzero : m_in.data = 0 := le_antisymm (not_lt.1 hpos) hlo
          rw [do_trace_resume_plain_body K NR_PROCS mproc who_p m_in c hres hf hpar hstopped
            hsig hzero]
          apply inv_relay
          apply inv_clear_stopped
          intro i hi _
          exact hinv i hi
      · have hb : do_trace K NR_PROCS mproc who_p m_in =
            relay K mproc who_p m_in c [⟨Call.find_proc m_in.pid, mproc⟩] := by
          have h1 : m_in.request ≠ T_RESUME := fun h => hres (Or.inl h)
          have h2 : m_in.request ≠ T_STEP := fun h => hres (Or.inr h)
          simp [do_trace, hok, hrd, hwr, hst, hex, h1, h2, hf, hpar, hstopped, hsig]
        rw [hb]; exact inv_relay K NR_PROCS mproc who_p m_in c _ hinv
  · intro rmp signo htr
    by_cases hrel : (K.sys_trace T_STOP (mproc rmp).mp_endpoint 0 none).1 = OK
    · by_cases hwait : (mproc (mproc rmp).mp_parent).mp_flags &&& WAITING = 0
      · rw [stop_proc_pending_body K mproc rmp signo hrel hwait]
        exact hss _ _ _ (inv_set_stopped NR_PROCS mproc rmp hinv htr)
      · rw [stop_proc_waiting_body K mproc rmp signo hrel hwait]
        exact hreply _ _ _ (hr2 _ _ _ (inv_clear_waiting NR_PROCS _ _
          (inv_set_stopped NR_PROCS mproc rmp hinv htr)))
    · have hb : (stop_proc K mproc rmp signo).mproc = mproc := by
        simp [stop_proc, hrel]
      rw [hb]; exact hinv

theorem stopped_traced_preserved_witness :
    stopped_implies_traced 4 (demo_table 7 (IN_USE ||| TRACED) 0) ∧
    stopped_implies_traced 4
      (do_trace (demo_relay OK) 4 (demo_table 7 (IN_USE ||| TRACED) 0) 1
        ⟨T_STOP, 10, 0, 0⟩).mproc ∧
    stopped_implies_traced 4
      (stop_proc (demo_relay OK) (demo_table 7 (IN_USE ||| TRACED) 0) 2 5).mproc := by
  have hinv : stopped_implies_traced 4 (demo_table 7 (IN_USE ||| TRACED) 0) := by
    unfold stopped_implies_traced
    decide
  have h := stopped_traced_preserved (demo_relay OK) 4 (demo_table 7 (IN_USE ||| TRACED) 0)
    hinv (fun _ _ _ _ ht => ht) (fun _ _ _ ht => ht) (fun _ _ _ ht => ht)
  refine ⟨hinv, h.1 1 ⟨T_STOP, 10, 0, 0⟩ ?_, h.2 2 5 (by decide)⟩
  intro _ c hc _ _
  have hc2 : c = 2 := by
    have h2 : find_proc 4 (demo_table 7 (IN_USE ||| TRACED) 0) 10 = some 2 := by decide
    have h3 : some c = some 2 := hc.symm.trans h2
    exact Option.some.inj h3
  subst hc2
  decide

/-! ## The order of stop notification and control requests -/

/-- The refusal of lines 110-111, for any table. -/
theorem do_trace_refused (K : Collaborators) (NR_PROCS : Nat) (t : Table) (who_p : Nat)
    (m_in : Message) (child : Nat)
    (hok : m_in.request ≠ T_OK) (hrd : m_in.request ≠ T_READB_INS)
    (hwr : m_in.request ≠ T_WRITEB_INS) (hstop : m_in.request ≠ T_STOP)
    (hfind : find_proc NR_PROCS t m_in.pid = some child)
    (hparent : (t child).mp_parent = who_p)
    (hstate : (t child).mp_flags &&& STOPPED = 0 ∨ (t child).mp_sigstatus > 0) :
    do_trace K NR_PROCS t who_p m_in = ⟨ESRCH, t, [⟨Call.find_proc m_in.pid, t⟩]⟩ := by
  simp [do_trace, hok, hrd, hwr, hstop, hfind, hparent, hstate]

/-- Past the test of lines 110-111 a request is never answered `ESRCH` with
the lookup as only call. -/
theorem do_trace_passes_check (K : Collaborators) (NR_PROCS : Nat) (t : Table) (who_p : Nat)
    (m_in : Message) (child : Nat)
    (hok : m_in.request ≠ T_OK) (hrd : m_in.request ≠ T_READB_INS)
    (hwr : m_in.request ≠ T_WRITEB_INS) (hstop : m_in.request ≠ T_STOP)
    (hfind : find_proc NR_PROCS t m_in.pid = some child)
    (hparent : (t child).mp_parent = who_p)
    (hstopped : (t child).mp_flags &&& STOPPED ≠ 0)
    (hsig : ¬ (t child).mp_sigstatus > 0) :
    ¬ ((do_trace K NR_PROCS t who_p m_in).ret = ESRCH ∧
       (do_trace K NR_PROCS t who_p m_in).calls = [⟨Call.find_proc m_in.pid, t⟩]) := by
  rintro ⟨hret, hcalls⟩
  have hlen : (do_trace K NR_PROCS t who_p m_in).calls.length = 1 := by rw [hcalls]; rfl
  by_cases hex : m_in.request = T_EXIT
  · have hb : (do_trace K NR_PROCS t who_p m_in).ret = SUSPEND := by
      simp [do_trace, hex, hfind, hparent, hstopped, hsig, exit_ne_ok, exit_ne_readb,
        exit_ne_writeb, exit_ne_stop]
    rw [hb] at hret
    exact absurd hret (by decide)
  by_cases hres : m_in.request = T_RESUME ∨ m_in.request = T_STEP
  · by_cases hbad : m_in.data < 0 ∨ m_in.data > _NSIG
    · have hb : (do_trace K NR_PROCS t who_p m_in).ret = EIO := by
        simp [do_trace, hok, hrd, hwr, hstop, hex, hres, hfind, hparent, hstopped, hsig, hbad]
      rw [hb] at hret
      exact absurd hret (by decide)
    have hlo : 0 ≤ m_in.data := not_lt.1 (fun h => hbad (Or.inl h))
    have hhi : m_in.data ≤ _NSIG := not_lt.1 (fun h => hbad (Or.inr h))
    by_cases hpos : 0 < m_in.data
    · rw [do_trace_resume_signal_body K NR_PROCS t who_p m_in child hres hfind hparent
        hstopped hsig hpos hhi, relay_calls] at hlen
      simp at hlen
    · have hzero : m_in.data = 0 := le_antisymm (not_lt.1 hpos) hlo
      rw [do_trace_resume_plain_body K NR_PROCS t who_p m_in child hres hfind hparent
        hstopped hsig hzero, relay_calls] at hlen
      simp at hlen
  · have hb : do_trace K NR_PROCS t who_p m_in =
        relay K t who_p m_in child [⟨Call.find_proc m_in.pid, t⟩] := by
      have h1 : m_in.request ≠ T_RESUME := fun h => hres (Or.inl h)
      have h2 : m_in.request ≠ T_STEP := fun h => hres (Or.inr h)
      simp [do_trace, hok, hrd, hwr, hstop, hex, h1, h2, hfind, hparent, hstopped, hsig]
    rw [hb, relay_calls] at hlen
    simp at hlen

/-- C20: let `stop_proc` stop a child that the lookup resolves, the relay's
`T_STOP` succeeding. If the parent is not `WAITING` and `signo` is positive,
the child's `mp_sigstatus` is `signo`, and in the table `stop_proc` leaves, as
in every later table in which the child is still resolved, still the caller's
child and still has that `mp_sigstatus`, a request of the parent with a
command other than `T_OK`, `T_STOP`, `T_READB_INS`, `T_WRITEB_INS` returns
`ESRCH` with the lookup as only call and no write. If the parent is
`WAITING`, the child had no pending `mp_sigstatus` and `setreply` leaves the
pids, parents, `mp_sigstatus` and the `STOPPED`, `IN_USE`, `ZOMBIE` bits
alone, then in the table `stop_proc` leaves the child is `STOPPED` with no
pending `mp_sigstatus` and the same request is not refused by the stop-state
test. -/
theorem stop_proc_then_do_trace (K1 K2 : Collaborators) (NR_PROCS : Nat) (mproc : Table)
    (child : Nat) (signo : Int) (pid : Int) (who_p : Nat)
    (hrelay : (K1.sys_trace T_STOP (mproc child).mp_endpoint 0 none).1 = OK)
    (hfind : find_proc NR_PROCS mproc pid = some child)
    (hparent : (mproc child).mp_parent = who_p) :
    ((mproc who_p).mp_flags &&& WAITING = 0 → 0 < signo →
      ((stop_proc K1 mproc child signo).mproc child).mp_sigstatus = signo ∧
      (∀ m_in : Message, m_in.pid = pid →
        m_in.request ≠ T_OK → m_in.request ≠ T_STOP →
        m_in.request ≠ T_READB_INS → m_in.request ≠ T_WRITEB_INS →
        (do_trace K2 NR_PROCS (stop_proc K1 mproc child signo).mproc who_p m_in).ret = ESRCH ∧
        (do_trace K2 NR_PROCS (stop_proc K1 mproc child signo).mproc who_p m_in).calls =
          [⟨Call.find_proc pid, (stop_proc K1 mproc child signo).mproc⟩] ∧
        (do_trace K2 NR_PROCS (stop_proc K1 mproc child signo).mproc who_p m_in).mproc =
          (stop_proc K1 mproc child signo).mproc) ∧
      (∀ (t2 : Table) (m_in : Message), m_in.pid = pid →
        m_in.request ≠ T_OK → m_in.request ≠ T_STOP →
        m_in.request ≠ T_READB_INS → m_in.request ≠ T_WRITEB_INS →
        find_proc NR_PROCS t2 pid = some child → (t2 child).mp_parent = who_p →
        (t2 child).mp_sigstatus = ((stop_proc K1 mproc child signo).mproc child).mp_sigstatus →
        (do_trace K2 NR_PROCS t2 who_p m_in).ret = ESRCH ∧
        (do_trace K2 NR_PROCS t2 who_p m_in).calls = [⟨Call.find_proc pid, t2⟩] ∧
        (do_trace K2 NR_PROCS t2 who_p m_in).mproc = t2)) ∧
    ((mproc who_p).mp_flags &&& WAITING ≠ 0 → ¬ (mproc child).mp_sigstatus > 0 →
      (∀ t p r i,
        ((K1.setreply t p r) i).mp_pid = (t i).mp_pid ∧
        ((K1.setreply t p r) i).mp_parent = (t i).mp_parent ∧
        ((K1.setreply t p r) i).mp_sigstatus = (t i).mp_sigstatus ∧
        ((K1.setreply t p r) i).mp_flags &&& STOPPED = (t i).mp_flags &&& STOPPED ∧
        ((K1.setreply t p r) i).mp_flags &&& (IN_USE ||| ZOMBIE) =
          (t i).mp_flags &&& (IN_USE ||| ZOMBIE)) →
      ((stop_proc K1 mproc child signo).mproc child).mp_flags &&& STOPPED ≠ 0 ∧
      ¬ ((stop_proc K1 mproc child signo).mproc child).mp_sigstatus > 0 ∧
      (∀ m_in : Message, m_in.pid = pid →
        m_in.request ≠ T_OK → m_in.request ≠ T_STOP →
        m_in.request ≠ T_READB_INS → m_in.request ≠ T_WRITEB_INS →
        ¬ ((do_trace K2 NR_PROCS (stop_proc K1 mproc child signo).mproc who_p m_in).ret
            = ESRCH ∧
          (do_trace K2 NR_PROCS (stop_proc K1 mproc child signo).mproc who_p m_in).calls =
            [⟨Call.find_proc pid, (stop_proc K1 mproc child signo).mproc⟩]))) := by
  subst hparent
  constructor
  · intro hwait hpos
    rw [stop_proc_pending_body K1 mproc child signo hrelay hwait]
    have hgen : ∀ (t2 : Table) (m_in : Message), m_in.pid = pid →
        m_in.request ≠ T_OK → m_in.request ≠ T_STOP →
        m_in.request ≠ T_READB_INS → m_in.request ≠ T_WRITEB_INS →
        find_proc NR_PROCS t2 pid = some child →
        (t2 child).mp_parent = (mproc child).mp_parent →
        (t2 child).mp_sigstatus = signo →
        (do_trace K2 NR_PROCS t2 (mproc child).mp_parent m_in).ret = ESRCH ∧
        (do_trace K2 NR_PROCS t2 (mproc child).mp_parent m_in).calls =
          [⟨Call.find_proc pid, t2⟩] ∧
        (do_trace K2 NR_PROCS t2 (mproc child).mp_parent m_in).mproc = t2 := by
      intro t2 m_in hpid h1 h2 h3 h4 hf hp hs
      subst hpid
      rw [do_trace_refused K2 NR_PROCS t2 _ m_in child h1 h3 h4 h2 hf hp
        (Or.inr (by rw [hs]; exact hpos))]
      exact ⟨rfl, rfl, rfl⟩
    refine ⟨by simp, ?_, ?_⟩
    · intro m_in hpid h1 h2 h3 h4
      apply hgen _ m_in hpid h1 h2 h3 h4
      · have hc : find_proc NR_PROCS (set_sigstatus (set_flags mproc child STOPPED) child signo)
            pid = find_proc NR_PROCS mproc pid := by
          apply find_proc_congr
          intro i _
          refine ⟨by simp, ?_⟩
          rw [set_sigstatus_mp_flags]
          by_cases h : i = child
          · subst h
            rw [set_flags_self]
            exact or_and_of_disjoint _ _ _ (by decide)
          · rw [set_flags_other _ _ _ _ h]
        rw [hc]; exact hfind
      · simp
      · simp
    · intro t2 m_in hpid h1 h2 h3 h4 hf hp hs
      apply hgen t2 m_in hpid h1 h2 h3 h4 hf hp
      rw [hs]; simp
  · intro hwait hsig hframe
    rw [stop_proc_waiting_body K1 mproc child signo hrelay hwait]
    have hst : ((K1.setreply
        (set_reply_res2
          (clear_flags (set_flags mproc child STOPPED) (mproc child).mp_parent WAITING)
          (mproc child).mp_parent (stop_status signo))
        (mproc child).mp_parent (mproc child).mp_pid) child).mp_flags &&& STOPPED ≠ 0 := by
      rw [(hframe _ _ _ child).2.2.2.1, set_reply_res2_mp_flags, clear_waiting_stopped]
      exact set_stopped_self mproc child
    have hsg : ¬ ((K1.setreply
        (set_reply_res2
          (clear_flags (set_flags mproc child STOPPED) (mproc child).mp_parent WAITING)
          (mproc child).mp_parent (stop_status signo))
        (mproc child).mp_parent (mproc child).mp_pid) child).mp_sigstatus > 0 := by
      rw [(hframe _ _ _ child).2.2.1]
      simpa using hsig
    refine ⟨hst, hsg, ?_⟩
    intro m_in hpid h1 h2 h3 h4
    subst hpid
    apply do_trace_passes_check K2 NR_PROCS _ _ m_in child h1 h3 h4 h2 _ _ hst hsg
    · have hc : find_proc NR_PROCS (K1.setreply
          (set_reply_res2
            (clear_flags (set_flags mproc child STOPPED) (mproc child).mp_parent WAITING)
            (mproc child).mp_parent (stop_status signo))
          (mproc child).mp_parent (mproc child).mp_pid) m_in.pid =
          find_proc NR_PROCS mproc m_in.pid := by
        apply find_proc_congr
        intro i _
        refine ⟨by rw [(hframe _ _ _ i).1]; simp, ?_⟩
        rw [(hframe _ _ _ i).2.2.2.2, set_reply_res2_mp_flags]
        have h1 : ((clear_flags (set_flags mproc child STOPPED) (mproc child).mp_parent WAITING)
            i).mp_flags &&& (IN_USE ||| ZOMBIE) =
            ((set_flags mproc child STOPPED) i).mp_flags &&& (IN_USE ||| ZOMBIE) := by
          by_cases h : i = (mproc child).mp_parent
          · rw [h, clear_flags_self]
            exact and_and_of_absorb _ _ _ (by decide)
          · rw [clear_flags_other _ _ _ _ h]
        rw [h1]
        by_cases h : i = child
        · subst h
          rw [set_flags_self]
          exact or_and_of_disjoint _ _ _ (by decide)
        · rw [set_flags_other _ _ _ _ h]
      rw [hc]; exact hfind
    · rw [(hframe _ _ _ child).2.1]; simp

theorem stop_proc_then_do_trace_witness :
    ((demo_relay OK).sys_trace T_STOP
      ((demo_table 7 (IN_USE ||| TRACED) 0) 2).mp_endpoint 0 none).1 = OK ∧
    find_proc 4 (demo_table 7 (IN_USE ||| TRACED) 0) 10 = some 2 ∧
    ((demo_table 7 (IN_USE ||| TRACED) 0) 1).mp_flags &&& WAITING = 0 ∧
    (do_trace (demo_relay OK) 4
      (stop_proc (demo_relay OK) (demo_table 7 (IN_USE ||| TRACED) 0) 2 5).mproc 1
      ⟨T_RESUME, 10, 0, 0⟩).ret = ESRCH ∧
    ((set_flags (demo_table 7 (IN_USE ||| TRACED) 0) 1 WAITING) 1).mp_flags &&& WAITING ≠ 0 ∧
    ((stop_proc (demo_relay OK) (set_flags (demo_table 7 (IN_USE ||| TRACED) 0) 1 WAITING)
      2 5).mproc 2).mp_flags &&& STOPPED ≠ 0 :=
  ⟨by decide, by decide, by decide,
   (((stop_proc_then_do_trace (demo_relay OK) (demo_relay OK) 4
      (demo_table 7 (IN_USE ||| TRACED) 0) 2 5 10 1 (by decide) (by decide) (by decide)).1
      (by decide) (by decide)).2.1 ⟨T_RESUME, 10, 0, 0⟩ rfl (by decide) (by decide) (by decide)
      (by decide)).1,
   by decide,
   ((stop_proc_then_do_trace (demo_relay OK) (demo_relay OK) 4
      (set_flags (demo_table 7 (IN_USE ||| TRACED) 0) 1 WAITING) 2 5 10 1 (by decide)
      (by decide) (by decide)).2 (by decide) (by decide)
      (fun _ _ _ _ => ⟨rfl, rfl, rfl, rfl, rfl⟩)).1⟩

end PM
